import Mathlib

/-
Verification of the spigot log-line generator core: a shallow embedding of
the fortinet:firewall generator (pkg/generator/fortinet/firewall), the
citrix:cef generator (pkg/generator/citrix/cef) and the pkg/random helpers,
together with theorems checking the natural-language specification.

The math/rand global source is modelled as the stream of raw draws it will
produce.  Every drawing helper consumes the stream from the front, so
quantifying over streams quantifies over all behaviours of the source.
-/

/-- Model of the math/rand source: the stream of raw non-negative draws it
will produce, consumed from the front (an exhausted stream yields 0). -/
structure Rng where
  draws : List Nat
deriving Repr, DecidableEq

/-- Take the next raw draw from the source. -/
def Rng.next (r : Rng) : Nat × Rng :=
  (r.draws.headD 0, ⟨r.draws.tail⟩)

/-- Model of rand.Intn n (n > 0 at every call site): a draw in [0, n). -/
def intn (n : Nat) (r : Rng) : Nat × Rng :=
  let (d, r') := r.next
  (d % n, r')

/-- Model of rand.Int63n n (n > 0 at every call site): a draw in [0, n). -/
def int63n (n : Int) (r : Rng) : Int × Rng :=
  let (d, r') := r.next
  ((d : Int) % n, r')

/-- Model of rand.Read for a buffer of k bytes: k draws, one byte each. -/
def readBytes : Nat → Rng → List Nat × Rng
  | 0, r => ([], r)
  | k + 1, r =>
    let (d, r') := r.next
    let (bs, r'') := readBytes k r'
    (d % 256 :: bs, r'')

/-- An IPv4 address as its four dotted-quad octets. -/
structure IP where
  a : Nat
  b : Nat
  c : Nat
  d : Nat
deriving Repr, DecidableEq

/-- Decimal digit character for n % 10. -/
def digitChar (n : Nat) : Char :=
  match n % 10 with
  | 0 => '0' | 1 => '1' | 2 => '2' | 3 => '3' | 4 => '4'
  | 5 => '5' | 6 => '6' | 7 => '7' | 8 => '8' | _ => '9'

/-- Digits of n, most significant first, in front of acc; fuel bounds the
recursion so that the definition is structural. -/
def natDigitsAux : Nat → Nat → List Char → List Char
  | 0, _, acc => acc
  | fuel + 1, n, acc =>
    if n < 10 then digitChar n :: acc
    else natDigitsAux fuel (n / 10) (digitChar n :: acc)

/-- Decimal rendering of a natural number, as Go's %v for non-negative ints. -/
def showNat (n : Nat) : String :=
  ⟨natDigitsAux (n + 1) n []⟩

/-- Decimal rendering of an integer, as Go's %v for ints. -/
def showInt (i : Int) : String :=
  if i < 0 then "-" ++ showNat i.natAbs else showNat i.natAbs

/-- Two-digit zero padded decimal (Go layout components 01, 02, 15, 04, 05). -/
def pad2 (n : Nat) : String :=
  if n < 10 then "0" ++ showNat n else showNat n

/-- Four-digit zero padded decimal (Go layout component 2006). -/
def pad4 (n : Nat) : String :=
  if n < 10 then "000" ++ showNat n
  else if n < 100 then "00" ++ showNat n
  else if n < 1000 then "0" ++ showNat n
  else showNat n

/-- Go's net.IP.String for an IPv4 address: the dotted quad. -/
def ipString (ip : IP) : String :=
  showNat ip.a ++ "." ++ showNat ip.b ++ "." ++ showNat ip.c ++ "." ++ showNat ip.d

/-- Civil date (year, month, day) of a count of days since 1970-01-01,
the standard proleptic-Gregorian conversion used by time.Time. -/
def civilFromDays (z0 : Int) : Int × Nat × Nat :=
  let z := z0 + 719468
  let era := z / 146097
  let doe := (z - era * 146097).toNat
  let yoe := (doe - doe / 1460 + doe / 36524 - doe / 146096) / 365
  let y : Int := (yoe : Int) + era * 400
  let doy := doe - (365 * yoe + yoe / 4 - yoe / 100)
  let mp := (5 * doy + 2) / 153
  let d := doy - (153 * mp + 2) / 5 + 1
  let m := if mp < 10 then mp + 3 else mp - 9
  (if m ≤ 2 then y + 1 else y, m, d)

/-- Go's t.UTC().Format("2006-01-02") for a unix-seconds timestamp. -/
def formatUTCDate (sec : Int) : String :=
  let (y, m, d) := civilFromDays (sec / 86400)
  pad4 y.toNat ++ "-" ++ pad2 m ++ "-" ++ pad2 d

/-- Go's t.Format("15:04:05") for a unix-nanoseconds timestamp. -/
def formatClock (ns : Int) : String :=
  let sod := ((ns / 1000000000) % 86400).toNat
  pad2 (sod / 3600) ++ ":" ++ pad2 (sod % 3600 / 60) ++ ":" ++ pad2 (sod % 60)

/-- Abbreviated month names, as Go layout component Jan. -/
def monthName (m : Nat) : String :=
  ["Jan", "Feb", "Mar", "Apr", "May", "Jun",
   "Jul", "Aug", "Sep", "Oct", "Nov", "Dec"].getD (m - 1) "Jan"

/-- Hexadecimal digit character for n % 16 (lowercase, as encoding/hex). -/
def hexDigit (n : Nat) : Char :=
  match n % 16 with
  | 0 => '0' | 1 => '1' | 2 => '2' | 3 => '3' | 4 => '4'
  | 5 => '5' | 6 => '6' | 7 => '7' | 8 => '8' | 9 => '9'
  | 10 => 'a' | 11 => 'b' | 12 => 'c' | 13 => 'd' | 14 => 'e' | _ => 'f'

/-- Go's hex.EncodeToString: two lowercase hex digits per byte. -/
def hexEncode : List Nat → String
  | [] => ""
  | b :: bs => ⟨[hexDigit (b / 16), hexDigit b]⟩ ++ hexEncode bs

/-- A string with no newline character (one complete single-line record). -/
def noNL (s : String) : Prop :=
  ∀ c ∈ s.data, c ≠ '\n'

instance (s : String) : Decidable (noNL s) :=
  List.decidableBAll (fun c => c ≠ '\n') s.data

/-- Uniform pick from a list of strings, rand-indexed (lookup-table draw). -/
def pickString (l : List String) (r : Rng) : String × Rng :=
  let (i, r') := intn l.length r
  (l.getD i "", r')

/-- Uniform pick from a list of naturals, rand-indexed. -/
def pickNat (l : List Nat) (r : Rng) : Nat × Rng :=
  let (i, r') := intn l.length r
  (l.getD i 0, r')

namespace random

/-- pkg/random IPv4: one 32-bit draw, low byte first octet. -/
def IPv4 (r : Rng) : IP × Rng :=
  let (d, r') := r.next
  let u32 := d % 4294967296
  (⟨u32 % 256, u32 / 256 % 256, u32 / 65536 % 256, u32 / 16777216 % 256⟩, r')

/-- pkg/random Port: rand.Intn 65536. -/
def Port (r : Rng) : Nat × Rng :=
  intn 65536 r

/-- The twenty-minute lookback window of Randomtime, in nanoseconds. -/
def lookbackNs : Int := 1200000000000

/-- pkg/random Randomtime.  It first calls rand.Seed with the wall clock, so
the entry state r of the global source is discarded; `seeded` is the stream
the source yields after that reseed.  It then draws an offset below twenty
minutes and formats now - 20min + offset as HH:MM:SS. -/
def Randomtime (nowNs : Int) (seeded : Rng) (_r : Rng) : String × Rng :=
  let (d, r') := int63n lookbackNs seeded
  let ts := nowNs - lookbackNs + d
  (formatClock ts, r')

end random

namespace firewall

/-- Fortinet firewall device name lookup table. -/
def devices : List String := ["Lakewood", "Midvale", "Brookside", "Holloway", "Fairview", "Westport", "Elmswood", "Ridgefield", "Pinehurst", "Stonebridge", "Mapleton", "Riverside", "Graysville", "Windermere", "Briarcliff", "Oakridge", "Highland", "Copperfield", "Woodhaven", "Silverton", "Rosewood", "Cedarcrest", "Ashford", "Elmwood", "Woodbury", "Springfield", "Ravenswood", "Stonegate", "Brookhaven", "Southgate", "Seabrook", "Edgewood", "Greenfield", "Meadowbrook", "Bellevue", "Clarksville", "Oakwood", "Ridgemont", "Crystal_Lake", "Riverview", "Whispering_Pines", "Forest_Hill", "Sunnydale", "Mountview", "Woodlake", "Baywood", "Brentwood", "Lincolnwood", "Summitville", "Elm_Grove"]

/-- Fortinet firewall device id lookup table. -/
def devid : List String := ["Lakew", "Midva", "Broos", "Hollo", "Fairv", "Westp", "Elmsw", "Ridge", "Pineh", "Stonb", "Maple", "Rivers", "Grayv", "Windm", "Briac", "Oakri", "Highl", "Copfi", "Woodh", "Silve", "Rosew", "Cedcr", "Ashfo", "Elmwo", "Woodb", "Sprin", "Raven", "Stoga", "Brooh", "South", "Seabr", "Edgew", "Green", "Meado", "Belle", "Clark", "Oakwo", "Ridgm", "Cryla", "Rivew", "Whisp", "Foreh", "Sunny", "Mount", "Woodl", "Baywo", "Brewd", "Lincw", "Summi", "Elmgv"]

/-- Fortinet firewall user lookup table. -/
def users : List String := ["Liam_Walters", "Emma_Douglas", "Noah_Hamilton", "Olivia_Stevens", "Elijah_Baker", "Ava_Reynolds", "James_Thompson", "Sophia_Parker", "Lucas_Bennett", "Isabella_Brooks", "Mason_Rogers", "Mia_Campbell", "Ethan_Phillips", "Amelia_Bell", "Alexander_Carter", "Charlotte_Adams", "Henry_Patterson", "Harper_Wright", "Sebastian_Cooper", "Evelyn_Gray", "Jack_Hughes", "Lily_Ross", "Owen_Morris", "Ella_Hayes", "Daniel_Peterson", "Aria_Myers", "Samuel_Long", "Chloe_Collins", "Matthew_Hughes", "Grace_Cook", "Wyatt_Warren", "Scarlett_Reed", "Caleb_Bryant", "Penelope_Rogers", "Isaac_Murphy", "Nora_Jenkins", "Jacob_Cunningham", "Hazel_Clark", "Levi_Morgan", "Riley_Perry", "Nathaniel_Foster", "Zoey_Ford", "Joshua_Harrison", "Lillian_Sullivan", "David_McCarthy", "Avery_Hart", "Andrew_Walker", "Stella_Price", "Thomas_Ward", "Hannah_Hall"]

/-- Fortinet firewall log level lookup table. -/
def levels : List String := ["warning", "notice", "information", "error"]

/-- Fortinet firewall interface lookup table. -/
def interfaces : List String := ["int0", "int1", "int2", "int3", "int4", "int5", "int6", "int7"]

/-- Fortinet firewall interface role lookup table. -/
def roles : List String := ["lan", "wan", "internal", "external", "inbound", "outbound"]

/-- Fortinet firewall protocol number lookup table. -/
def protocols : List Nat := [6, 17]

/-- Fortinet firewall DNS query name lookup table. -/
def queries : List String := ["www.silverpinevalley.com", "www.brickstoneridge.net", "www.oakwoodgrove.org", "www.bluewaterhaven.co", "www.copperhollow.info", "www.windyriverplains.com", "www.crystalbayvillage.net", "www.ironwoodcove.org", "www.sunsetbluffresort.co", "www.whisperinghillspoint.info", "www.mapleridgeranch.com", "www.goldenpeakfarms.net", "www.riverviewmeadows.org", "www.stonecreekwoods.co", "www.briarwoodcrossing.info", "www.highlandgrovesprings.com", "www.greenfieldretreat.net", "www.silverlakehollow.org", "www.rosewoodvista.co", "www.ashforddunes.info", "www.willowbrookcourt.com", "www.oakridgefalls.net", "www.copperfieldgrove.org", "www.windermerebay.co", "www.meadowbrookhaven.info", "www.bellavistaacres.com", "www.ridgemontestates.net", "www.sunnydaleshores.org", "www.lakewoodreserves.co", "www.westportpines.info", "www.elmswoodmeadow.com", "www.ridgefieldplaza.net", "www.pinehurstcove.org", "www.stonebridgeflats.co", "www.mapletonlodge.info", "www.graysvillemanor.com", "www.windermerepoint.net", "www.briarcliffheights.org", "www.oakridgebay.co", "www.highlandcrossing.info", "www.copperfieldterrace.com", "www.woodhavenhills.net", "www.silvertonview.org", "www.rosewoodvalley.co", "www.cedarcrestgrove.info", "www.ashfordpeaks.com", "www.elmwoodlakes.net", "www.woodburyridge.org", "www.springfieldbluff.co"]

/-- Fortinet firewall DNS query type lookup table. -/
def queryTypes : List String := ["A", "AAAA"]

/-- Fortinet firewall server lookup table. -/
def servers : List String := ["Zeus_prod", "Hera_test", "Poseidon_dev", "Demeter_prod", "Athena_dev", "Apollo_test", "Artemis_prod", "Ares_dev", "Aphrodite_test", "Hephaestus_prod", "Hermes_dev", "Hestia_test", "Dionysus_prod", "Hades_dev", "Persephone_test", "Hecate_prod", "Gaia_dev", "Cronus_test", "Rhea_prod", "Eros_dev", "Helios_test", "Selene_prod", "Eos_dev", "Nike_test", "Nemesis_prod", "Iris_dev", "Hypnos_test", "Thanatos_prod", "Morpheus_dev", "Tyche_test", "Pan_prod", "Eris_dev", "Hebe_test", "Nyx_prod", "Khione_dev", "Themis_test", "Harmonia_prod", "Phoebe_dev", "Leto_test", "Tethys_prod", "Metis_dev", "Aether_test", "Hemera_prod", "Eurus_dev", "Notus_test", "Boreas_prod", "Zephyrus_dev", "Styx_test", "Phobos_prod", "Deimos_dev"]

/-- Fortinet firewall traffic action lookup table. -/
def trafficActions : List String := ["deny", "accept"]

/-- The four compiled message templates of the fortinet:firewall format, as
identifiers; their bodies are the render functions below. -/
inductive Tmpl where
  | eventUser
  | eventSystem
  | utmDns
  | trafficForward
deriving Repr, DecidableEq

/-- The msgTemplates array: the format's four alternative templates. -/
def msgTemplates : List Tmpl :=
  [.eventUser, .eventSystem, .utmDns, .trafficForward]

end firewall

/-- The Firewall current record: the fields of the Go struct, with the
compiled-template slice as template identifiers.  Defaults are Go's zero
values, so `{}` is the record New starts from. -/
structure Firewall where
  Timestamp : String := ""
  Date : Int := 0
  DevId : String := ""
  DevName : String := ""
  Direction : String := ""
  DstIp : IP := ⟨0, 0, 0, 0⟩
  DstPort : Nat := 0
  Duration : Nat := 0
  Interface1 : String := ""
  Interface2 : String := ""
  InterfaceRole1 : String := ""
  InterfaceRole2 : String := ""
  Level : String := ""
  LogId : Nat := 0
  PolicyId : Nat := 0
  Protocol : Nat := 0
  QueryName : String := ""
  QueryType : String := ""
  ReceivedBytes : Nat := 0
  SentBytes : Nat := 0
  SentPackets : Nat := 0
  Server : String := ""
  SessionId : Nat := 0
  SrcIp : IP := ⟨0, 0, 0, 0⟩
  SrcPort : Nat := 0
  Templates : List firewall.Tmpl := []
  Timezone : String := ""
  TrafficAction : String := ""
  User : String := ""
  Vd : String := ""
  XId : Nat := 0
deriving Repr, DecidableEq

namespace firewall

/-- Rendering of eventUserTemplate against a record. -/
def renderEventUser (f : Firewall) : String :=
  "date=" ++ formatUTCDate f.Date ++ " time=" ++ f.Timestamp
    ++ " devname=\"" ++ f.DevName ++ "\" devid=\"" ++ f.DevId
    ++ "\" logid=\"" ++ showNat f.LogId
    ++ "\" type=\"event\" subtype=\"user\" level=\"" ++ f.Level
    ++ "\" vd=\"" ++ f.Vd ++ "\" eventtime=" ++ showInt f.Date
    ++ " tz=\"" ++ f.Timezone
    ++ "\" logdesc=\"FSSO logon authentication status\" srcip=" ++ ipString f.SrcIp
    ++ " user=\"" ++ f.User ++ "\" server=\"" ++ f.Server
    ++ "\" action=\"FSSO-logon\" msg=\"FSSO-logon event from FSSO_" ++ f.Server
    ++ ": user " ++ f.User ++ " logged on " ++ ipString f.SrcIp ++ "\""

/-- Rendering of eventSystemTemplate against a record. -/
def renderEventSystem (f : Firewall) : String :=
  "date=" ++ formatUTCDate f.Date ++ " time=" ++ f.Timestamp
    ++ " devname=\"" ++ f.DevName ++ "\" devid=\"" ++ f.DevId
    ++ "\" logid=\"" ++ showNat f.LogId
    ++ "\" type=\"event\" subtype=\"system\" level=\"" ++ f.Level
    ++ "\" vd=\"" ++ f.Vd ++ "\" eventtime=" ++ showInt f.Date
    ++ " tz=\"" ++ f.Timezone
    ++ "\" logdesc=\"FortiSandbox AV database updated\" version=\"1.522479\""
    ++ " msg=\"FortiSandbox AV database updated\""

/-- Rendering of utmDnsTemplate against a record. -/
def renderUtmDns (f : Firewall) : String :=
  "date=" ++ formatUTCDate f.Date ++ " time=" ++ f.Timestamp
    ++ " devname=\"" ++ f.DevName ++ "\" devid=\"" ++ f.DevId
    ++ "\" logid=\"" ++ showNat f.LogId
    ++ "\" type=\"utm\" subtype=\"dns\" eventtype=\"dns-query\" level=\"" ++ f.Level
    ++ "\" vd=\"" ++ f.Vd ++ "\" eventtime=" ++ showInt f.Date
    ++ " tz=\"" ++ f.Timezone
    ++ "\" policyid=" ++ showNat f.PolicyId
    ++ " sessionid=" ++ showNat f.SessionId
    ++ " srcip=" ++ ipString f.SrcIp
    ++ " srcport=" ++ showNat f.SrcPort
    ++ " srcintf=\"" ++ f.Interface1 ++ "\" srcintfrole=\"" ++ f.InterfaceRole1
    ++ "\" dstip=" ++ ipString f.DstIp
    ++ " dstport=53 dstintf=\"" ++ f.Interface2
    ++ "\" dstintfrole=\"" ++ f.InterfaceRole2
    ++ "\" proto=" ++ showNat f.Protocol
    ++ " profile=\"" ++ f.Server
    ++ "\" xid=" ++ showNat f.XId
    ++ " qname=\"" ++ f.QueryName
    ++ "\" qtype=\"" ++ f.QueryType
    ++ "\" qtypeval=1 qclass=\"IN\""

/-- Rendering of trafficForwardTemplate against a record; note that both
sentbyte and rcvdbyte interpolate the SentBytes field. -/
def renderTrafficForward (f : Firewall) : String :=
  "date=" ++ formatUTCDate f.Date ++ " time=" ++ f.Timestamp
    ++ " devname=\"" ++ f.DevName ++ "\" devid=\"" ++ f.DevId
    ++ "\" logid=\"" ++ showNat f.LogId
    ++ "\" type=\"traffic\" subtype=\"forward\" level=\"" ++ f.Level
    ++ "\" vd=\"" ++ f.Vd ++ "\" eventtime=" ++ showInt f.Date
    ++ " srcip=" ++ ipString f.SrcIp
    ++ " srcport=" ++ showNat f.SrcPort
    ++ " srcintf=\"" ++ f.Interface1 ++ "\" srcintfrole=\"" ++ f.InterfaceRole1
    ++ "\" dstip=" ++ ipString f.DstIp
    ++ " dstport=" ++ showNat f.DstPort
    ++ " dstintf=\"" ++ f.Interface2
    ++ "\" dstintfrole=\"" ++ f.InterfaceRole2
    ++ "\" sessionid=" ++ showNat f.SessionId
    ++ " proto=" ++ showNat f.Protocol
    ++ " action=\"" ++ f.TrafficAction
    ++ "\" policyid=" ++ showNat f.PolicyId
    ++ " policytype=\"policy\" service=\"SNMP\" dstcountry=\"Reserved\""
    ++ " srccountry=\"Reserved\" trandisp=\"noop\" duration=" ++ showNat f.Duration
    ++ " sentbyte=" ++ showNat f.SentBytes
    ++ " rcvdbyte=" ++ showNat f.SentBytes
    ++ " sentpkt=" ++ showNat f.SentPackets
    ++ " appcat=\"unscanned\" crscore=30 craction=131072 crlevel=\"high\""

/-- Dispatch of one template identifier to its rendering. -/
def renderTmpl : Tmpl → Firewall → String
  | .eventUser, f => renderEventUser f
  | .eventSystem, f => renderEventSystem f
  | .utmDns, f => renderUtmDns f
  | .trafficForward, f => renderTrafficForward f

/-- Model of template.Execute for the firewall templates: rendering against a
Firewall record resolves every placeholder, so it succeeds. -/
def execTemplate (t : Tmpl) (f : Firewall) : Except String String :=
  .ok (renderTmpl t f)

end firewall

/-- Firewall.randomize.  `nowNs` is the wall clock at the call, `seeded` the
stream the global source yields after Randomtime's reseed, `r` the source
state at entry (discarded by the reseed).  Fields draw in source order;
Direction, ReceivedBytes and Templates are not assigned. -/
def Firewall.randomize (f : Firewall) (nowNs : Int) (seeded : Rng) (r : Rng) :
    Firewall × Rng :=
  let (ts, r) := random.Randomtime nowNs seeded r
  let (devName, r) := pickString firewall.devices r
  let (devId, r) := pickString firewall.devid r
  let (logId, r) := intn 10 r
  let (user, r) := pickString firewall.users r
  let (server, r) := pickString firewall.servers r
  let (srcIp, r) := random.IPv4 r
  let (srcPort, r) := random.Port r
  let (dstIp, r) := random.IPv4 r
  let (dstPort, r) := random.Port r
  let (policyId, r) := intn 256 r
  let (sessionId, r) := intn 65536 r
  let (i1, r) := pickString firewall.interfaces r
  let (i2, r) := pickString firewall.interfaces r
  let (ir1, r) := pickString firewall.roles r
  let (ir2, r) := pickString firewall.roles r
  let (proto, r) := pickNat firewall.protocols r
  let (qn, r) := pickString firewall.queries r
  let (qt, r) := pickString firewall.queryTypes r
  let (xid, r) := intn 256 r
  let (lvl, r) := pickString firewall.levels r
  let (ta, r) := pickString firewall.trafficActions r
  let (sp, r) := intn 65536 r
  let (dur, r) := intn 1024 r
  ({ f with
      Timestamp := ts
      DevName := devName
      DevId := devId
      LogId := logId
      Timezone := "-0500"
      Date := nowNs / 1000000000
      Vd := "root"
      User := user
      Server := server
      SrcIp := srcIp
      SrcPort := srcPort
      DstIp := dstIp
      DstPort := dstPort
      PolicyId := policyId
      SessionId := sessionId
      Interface1 := i1
      Interface2 := i2
      InterfaceRole1 := ir1
      InterfaceRole2 := ir2
      Protocol := proto
      QueryName := qn
      QueryType := qt
      XId := xid
      Level := lvl
      TrafficAction := ta
      SentPackets := sp
      SentBytes := sp * 1500
      Duration := dur }, r)

/-- Firewall.Next with the template engine's Execute as a parameter (the
engine is the external text/template collaborator): pick one template index
uniformly, execute it against the current record, and only on success
randomize the record again. -/
def Firewall.NextE (exec : firewall.Tmpl → Firewall → Except String String)
    (f : Firewall) (nowNs : Int) (seeded : Rng) (r : Rng) :
    Except String String × Firewall × Rng :=
  let i := (intn f.Templates.length r).1
  let r' := (intn f.Templates.length r).2
  match exec (f.Templates.getD i .eventUser) f with
  | .error e => (.error e, f, r')
  | .ok buf => (.ok buf, (f.randomize nowNs seeded r').1, (f.randomize nowNs seeded r').2)

/-- Firewall.Next: NextE with the actual template rendering. -/
def Firewall.Next (f : Firewall) (nowNs : Int) (seeded : Rng) (r : Rng) :
    Except String String × Firewall × Rng :=
  Firewall.NextE firewall.execTemplate f nowNs seeded r

/-- The construction-error taxonomy of the spec: a ConfigError from config
unpacking, or a TemplateError from template compilation. -/
inductive NewError where
  | config (msg : String)
  | template (msg : String)
deriving Repr, DecidableEq

/-- Compile every declared template string in order, stopping at the first
failure, as New's loop does; on success the compiled set is the full list. -/
def compileAll {τ : Type} (compile : τ → Except String Unit) :
    List τ → Except String (List τ)
  | [] => .ok []
  | t :: ts =>
    match compile t with
    | .error e => .error e
    | .ok _ =>
      match compileAll compile ts with
      | .error e => .error e
      | .ok cs => .ok (t :: cs)

/-- firewall.New.  `unpack` is the external go-ucfg config unpacking into
defaultConfig (defaultConfig itself is not among the given sources) and
`compile` the external text/template compiler; both are parameters.  New
unpacks, randomizes a zero record, then compiles all templates. -/
def firewall.New (unpack : Except String Unit)
    (compile : firewall.Tmpl → Except String Unit)
    (nowNs : Int) (seeded : Rng) (r : Rng) : Except NewError Firewall :=
  match unpack with
  | .error e => .error (.config e)
  | .ok _ =>
    let f := (Firewall.randomize {} nowNs seeded r).1
    match compileAll compile firewall.msgTemplates with
    | .error e => .error (.template e)
    | .ok ts => .ok { f with Templates := ts }

namespace cef

/-- Citrix CEF syslog time layout lookup table. -/
def timeLayouts : List String := ["Jan 02 15:04:05", "Jan 2 15:04:05"]

/-- Citrix CEF syslog facility lookup table. -/
def facilities : List String := ["auth", "authpriv", "cron", "daemon", "kern", "lpr", "mail", "mark", "news", "syslog", "user", "uucp", "local0", "local1", "local2", "local3", "local4", "local5", "local6", "local7"]

/-- Citrix CEF syslog priority lookup table. -/
def priorities : List String := ["debug", "info", "notice", "warning", "warn", "err", "error", "crit", "alert", "emerg", "panic"]

/-- Citrix CEF vendor lookup table. -/
def vendors : List String := ["Citrix"]

/-- Citrix CEF product lookup table. -/
def products : List String := ["NetScalar"]

/-- Citrix CEF version lookup table. -/
def versions : List String := ["NS10.0", "NS11.0"]

/-- Citrix CEF module lookup table. -/
def modules : List String := ["APPFW"]

/-- Citrix CEF violation lookup table. -/
def violations : List String := ["APPFW_FIELDCONSISTENCY", "APPFW_SAFECOMMERCE", "APPFW_SAFECOMMERCE_XFORM", "APPFW_SIGNATURE_MATCH", "APPFW_STARTURL"]

/-- Citrix CEF geolocation lookup table (empty entry: no geolocation). -/
def locations : List String := ["", "Unknown", "NorthAmerica.Altimoria.Corvax.CityCenter.*.*", "NorthAmerica.Florensia.Novath.TremorValley.*.*", "NorthAmerica.Gallania.Rovento.Sunridge.*.*", "NorthAmerica.Baltoria.Velzora.PolarisHeights.*.*", "NorthAmerica.Novadia.Quivera.FlamingRidge.*.*", "NorthAmerica.Xandria.Velmos.Riverstone.*.*", "NorthAmerica.Kestoria.Yalvaz.CrimsonHill.*.*", "NorthAmerica.Vollara.Zendar.AuroraPeaks.*.*", "NorthAmerica.Quintara.Pallaxa.SilverLake.*.*", "NorthAmerica.Morovia.Korvath.SolarisPlains.*.*", "NorthAmerica.Serenia.Ryland.Stormview.*.*", "NorthAmerica.Zyrenthia.Vortak.Ironcliff.*.*", "NorthAmerica.Valoria.Draconis.WildroseGlen.*.*", "NorthAmerica.Tarvonia.Felwind.ShadowGrove.*.*", "NorthAmerica.Lorasia.Velthra.Sunspire.*.*", "NorthAmerica.Talvaxia.Balaria.CrimsonFalls.*.*", "NorthAmerica.Elandria.Kovoria.Glintwood.*.*", "NorthAmerica.Orlanta.Zandor.Mistvale.*.*", "NorthAmerica.Valteris.Xanoris.ThunderValley.*.*", "NorthAmerica.Morlonia.Phaedra.EchoHaven.*.*", "NorthAmerica.Theria.Vestoria.TremorHollow.*.*", "NorthAmerica.Zarvath.Mystara.Glintwood.*.*", "NorthAmerica.Kalandor.Volvax.Silverstrand.*.*", "NorthAmerica.Olivar.Ventara.CrimsonMesa.*.*", "NorthAmerica.Theronia.Pyrax.ThunderRidge.*.*", "NorthAmerica.Veloria.Zyros.Moonshadow.*.*", "NorthAmerica.Zovaris.Korvax.Stormcrest.*.*", "NorthAmerica.Valentia.Rivenor.Sunblade.*.*", "NorthAmerica.Zeltria.Orex.Shadowridge.*.*", "NorthAmerica.Voronia.Xelthra.Thunderpeak.*.*", "SouthAmerica.Viridia.Malothia.JadeHollow.*.*", "SouthAmerica.Malandria.Aurelia.PhoenixBay.*.*", "SouthAmerica.Valcoria.Lorvia.EmeraldIsle.*.*", "SouthAmerica.Aronya.Valeria.MysticFalls.*.*", "SouthAmerica.Celestia.Palvoria.EbonyVale.*.*", "SouthAmerica.Zorvia.Sarath.TalonCliffs.*.*", "SouthAmerica.Celentis.Volara.Dreamshade.*.*", "SouthAmerica.Valthera.Tarvora.CrimsonCove.*.*", "SouthAmerica.Xanthia.Theros.MysticGrove.*.*", "SouthAmerica.Selveria.Pyros.Riverwind.*.*", "SouthAmerica.Volthea.Arventis.ShadowGlen.*.*", "SouthAmerica.Eldoria.Lithara.Thunderstone.*.*", "SouthAmerica.Korvax.Talora.Sunspire.*.*", "SouthAmerica.Vyxoria.Zandros.Shadowvale.*.*", "SouthAmerica.Pyronia.Volcath.SilentHill.*.*", "SouthAmerica.Zylandria.Orvath.CrimsonBay.*.*", "SouthAmerica.Valtheris.Vorlon.Suncrest.*.*", "SouthAmerica.Xylandria.Antaris.EchoValley.*.*", "SouthAmerica.Novanta.Pallaxa.LunarGrove.*.*", "SouthAmerica.Quilara.Talvos.StormBluff.*.*", "SouthAmerica.Vandora.Valzor.SilverStream.*.*", "SouthAmerica.Xyvronia.Lithara.MysticCove.*.*", "SouthAmerica.Selvoria.Vorvath.ThunderGlen.*.*", "SouthAmerica.Valencia.Orvalon.Rivercrest.*.*", "SouthAmerica.Xylothia.Zentar.GlintRidge.*.*", "SouthAmerica.Voloria.Sylvara.TwilightPeak.*.*", "Europe.Maldera.Quinthra.Shadowpeak.*.*", "Europe.Talvoria.Aurex.LunarHollow.*.*", "Europe.Valtoria.Xelara.SunfallGlen.*.*", "Europe.Xylandria.Korinox.StormCrest.*.*", "Europe.Ceridia.Vandor.SilverGrove.*.*", "Europe.Kytheria.Zorthal.Ravenridge.*.*", "Europe.Zypheria.Malvora.Sunwood.*.*", "Europe.Volaxia.Talendria.Moonstone.*.*", "Europe.Karvoria.Vorlon.EchoMesa.*.*", "Europe.Thalandia.Zaltor.Sunridge.*.*", "Europe.Vantoria.Syldor.CrimsonHollow.*.*", "Europe.Xantheas.Oltar.Stormwind.*.*", "Europe.Quinthia.Aetheris.ThunderCliff.*.*", "Europe.Rovinthar.Zyros.CrimsonGlade.*.*", "Europe.Selveris.Vorath.MoonBluff.*.*", "Europe.Talvora.Zyloth.Glintwood.*.*", "Europe.Valtheris.Vorath.MysticHaven.*.*", "Europe.Zelvoris.Altira.Silverthorn.*.*", "Europe.Valthera.Kylos.Sunspire.*.*", "Europe.Xyphera.Voltara.ShadowMire.*.*", "Europe.Celathra.Tharvos.MysticCove.*.*", "Europe.Theronis.Orvax.CrimsonPeak.*.*", "Europe.Selvorn.Korvath.ThunderBay.*.*", "Europe.Zantheria.Voloria.SilverMesa.*.*", "Europe.Xyrelia.Talvora.RavenGlen.*.*", "Europe.Valoria.Zelthra.Moonrise.*.*", "Europe.Quinthara.Olthera.SilverLake.*.*", "Europe.Zoltara.Ryvon.ThunderHill.*.*", "Europe.Selvoris.Vorland.Suncrest.*.*", "Europe.Theronix.Xarvath.CrimsonRidge.*.*", "Europe.Korvaris.Valthros.StormBay.*.*", "Europe.Valdoria.Quinthos.EchoGrove.*.*", "Africa.Voltheon.Zoltris.Suncrest.*.*", "Africa.Thalvaria.Ravinthar.LunarHollow.*.*", "Africa.Valoria.Xalvath.ThunderPlains.*.*", "Africa.Zorvath.Selenor.Silverpeak.*.*", "Africa.Vandora.Kylandar.MysticRidge.*.*", "Africa.Quinthar.Valthoria.Stormshade.*.*", "Africa.Xylothar.Vorath.SunValley.*.*", "Africa.Zelandia.Theronis.CrimsonCove.*.*", "Africa.Vantheon.Selvos.Moonspire.*.*", "Africa.Therondar.Volaria.ShadowGrove.*.*", "Africa.Valdoria.Altira.LunarBay.*.*", "Africa.Selvoria.Xylandor.Glintwood.*.*", "Africa.Xyronia.Valtheris.Sunridge.*.*", "Africa.Quinthar.Voltara.ThunderGrove.*.*", "Africa.Valterra.Olthoria.CrimsonBluff.*.*", "Africa.Xalvoria.Zorath.MysticPeak.*.*", "Africa.Thalvaris.Zanthon.Sunstone.*.*", "Africa.Rovinthar.Vantoria.EchoRidge.*.*", "Africa.Selthara.Zorvath.SilverCrest.*.*", "Africa.Xylandra.Valdoria.MoonRidge.*.*", "Africa.Valtheris.Zolvaris.ShadowValley.*.*", "Africa.Vorlonia.Thalvaris.Thunderstone.*.*", "Africa.Xalvaris.Zeltria.Sunbluff.*.*", "Africa.Vandaria.Rovinthar.GlintPeak.*.*", "Africa.Thalvath.Xoltris.SilverVale.*.*", "Africa.Valdaria.Sylvoris.MoonCrest.*.*", "Africa.Seltheris.Voltrax.CrimsonHill.*.*", "Africa.Valtheris.Rovinthor.SunGrove.*.*", "Africa.Xarvath.Zorvinth.StormValley.*.*", "Africa.Kylandor.Valthros.Glintstone.*.*", "Africa.Sylvoria.Zelvath.MoonGlen.*.*", "Asia.Valdoria.Tharvos.SunGrove.*.*", "Asia.Xelthar.Vorlon.Moonshade.*.*", "Asia.Zantheria.Vorath.StormVale.*.*", "Asia.Valtheris.Selvath.ThunderCrest.*.*", "Asia.Tharvath.Xoltria.Sunbluff.*.*", "Asia.Zolvaris.Valthros.ShadowGrove.*.*", "Asia.Xarvath.Selvorn.Moonstone.*.*", "Asia.Voltaris.Zeltria.GlintRidge.*.*", "Asia.Seltharis.Valoria.Sunwood.*.*", "Asia.Valtoris.Thalvath.MysticGrove.*.*", "Asia.Zarvath.Xelvos.CrimsonPeak.*.*", "Asia.Volaris.Tharvon.Shadowvale.*.*", "Asia.Xelvoris.Valtheria.SilverGlen.*.*", "Asia.Valdoria.Zorvath.LunarHollow.*.*", "Asia.Xylandar.Valvoria.Sunstone.*.*", "Asia.Theronis.Voltrax.Glintwood.*.*", "Asia.Zeltria.Valtoria.StormGlen.*.*", "Asia.Vanthara.Tharvath.ThunderBay.*.*", "Asia.Selthra.Zoltrax.Moonridge.*.*", "Asia.Valtheria.Zarvath.Sunbluff.*.*", "Asia.Xoltria.Volaria.SilverBay.*.*", "Asia.Theronis.Valdaria.Shadowstone.*.*", "Asia.Valvoria.Zyloth.SunVale.*.*", "Asia.Xantheria.Thalvath.Moonstone.*.*", "Asia.Zarvath.Valthros.GlintGlen.*.*", "Asia.Vorathia.Xelthros.Suncrest.*.*", "Asia.Selvoria.Zolvaris.CrimsonHill.*.*", "Asia.Valdoris.Theronis.MoonGrove.*.*"]

/-- Citrix CEF HTTP method lookup table. -/
def methods : List String := ["GET", "POST"]

/-- Citrix CEF request URL lookup table. -/
def requests : List String := ["http://aaron.stratum8.net/FFC/login.html", "http://aaron.stratum8.net/FFC/login.php?login_name=abc&passwd=123456789234&drinking_pref=on&text_area=&loginButton=ClickToLogin&as_sfid=AAAAAAWIahZuYoIFbjBhYMP05mJLTwEfIY0a7AKGMg3jIBaKmwtK4t7M7lNxOgj7Gmd3SZc8KUj6CR6a7W5kIWDRHN8PtK1Zc-txHkHNx1WknuG9DzTuM7t1THhluevXu9I4kp8%3D&as_fid=feeec8758b41740eedeeb6b35b85dfd3d5def30c", "http://aaron.stratum8.net/FFC/wwwboard/passwd.txt", "http://aaron.stratum8.net/FFC/CreditCardMind.html", "http://vpx247.example.net/FFC/CreditCardMind.html", "http://vpx247.example.net/FFC/login_post.html?abc\\=def", "http://vpx247.example.net/FFC/wwwboard/passwd.txt"]

/-- Citrix CEF message lookup table. -/
def messages : List String := ["Signature violation rule ID 807: web-cgi /wwwboard/passwd.txt access", "Disallow Illegal URL.", "Transformed (xout) potential credit card numbers seen in server response", "Maximum number of potential credit card numbers seen", "Field consistency check failed for field passwd"]

/-- Citrix CEF profile lookup table. -/
def profiles : List String := ["pr_ffc"]

/-- Citrix CEF severity label lookup table. -/
def severityLabels : List String := ["INFO", "ALERT"]

/-- Citrix CEF violation category lookup table (empty entry: none). -/
def violationCategory : List String := ["", "web-cgi", "sql-injection", "phishing"]

/-- Citrix CEF action lookup table. -/
def actions : List String := ["blocked", "not blocked", "transformed"]

end cef

namespace cef

/-- The single compiled message template of the citrix:cef format. -/
inductive Tmpl where
  | main
deriving Repr, DecidableEq

/-- The msgTemplates slice: this format's one alternative. -/
def msgTemplates : List Tmpl := [.main]

end cef

/-- The CEF current record: the fields of the Go struct (Timestamp as unix
seconds), with the compiled-template slice as template identifiers.
Defaults are Go's zero values, so `{}` is the record New starts from. -/
structure CEF where
  Timestamp : Int := 0
  TimeLayout : String := ""
  Facility : String := ""
  Priority : String := ""
  Addr : IP := ⟨0, 0, 0, 0⟩
  CEFVersion : Nat := 0
  Vendor : String := ""
  Product : String := ""
  Version : String := ""
  Module : String := ""
  Violation : String := ""
  Severity : Nat := 0
  SrcAddr : IP := ⟨0, 0, 0, 0⟩
  Geo : String := ""
  SrcPort : Nat := 0
  Method : String := ""
  Request : String := ""
  Message : String := ""
  EventID : Nat := 0
  TxID : Nat := 0
  Profile : String := ""
  PPEID : String := ""
  SessID : String := ""
  SeverityLabel : String := ""
  Year : Int := 0
  ViolationCategory : String := ""
  Action : String := ""
  templates : List cef.Tmpl := []
deriving Repr, DecidableEq

namespace cef

/-- Go's t.Format over the two layouts of timeLayouts ("Jan 02 15:04:05"
zero-pads the day, "Jan 2 15:04:05" does not), for a unix-seconds time. -/
def formatCefTime (layout : String) (sec : Int) : String :=
  let (_, m, d) := civilFromDays (sec / 86400)
  let sod := (sec % 86400).toNat
  let hms := pad2 (sod / 3600) ++ ":" ++ pad2 (sod % 3600 / 60) ++ ":" ++ pad2 (sod % 60)
  let day := if layout = "Jan 2 15:04:05" then showNat d else pad2 d
  monthName m ++ " " ++ day ++ " " ++ hms

/-- The year of a unix-seconds timestamp, as Go's t.Year(). -/
def yearOf (sec : Int) : Int :=
  (civilFromDays (sec / 86400)).1

/-- Rendering of the CEF template against a record.  The `with` blocks for
Geo and ViolationCategory appear only when the field is non-empty. -/
def renderCef (c : CEF) : String :=
  formatCefTime c.TimeLayout c.Timestamp
    ++ " <" ++ c.Facility ++ "." ++ c.Priority ++ "> "
    ++ ipString c.Addr
    ++ " CEF:" ++ showNat c.CEFVersion
    ++ "|" ++ c.Vendor ++ "|" ++ c.Product ++ "|" ++ c.Version
    ++ "|" ++ c.Module ++ "|" ++ c.Violation ++ "|" ++ showNat c.Severity
    ++ "|src=" ++ ipString c.SrcAddr ++ " "
    ++ (if c.Geo = "" then "" else "geolocation=" ++ c.Geo ++ " ")
    ++ "spt=" ++ showNat c.SrcPort
    ++ " method=" ++ c.Method
    ++ " request=" ++ c.Request
    ++ " msg=" ++ c.Message
    ++ " cn1=" ++ showNat c.EventID
    ++ " cn2=" ++ showNat c.TxID
    ++ " cs1=" ++ c.Profile
    ++ " cs2=" ++ c.PPEID
    ++ " cs3=" ++ c.SessID
    ++ " cs4=" ++ c.SeverityLabel
    ++ " cs5=" ++ showInt c.Year ++ " "
    ++ (if c.ViolationCategory = "" then "" else "cs6=" ++ c.ViolationCategory ++ " ")
    ++ "act=" ++ c.Action

/-- Dispatch of the one template identifier to its rendering. -/
def renderTmpl : Tmpl → CEF → String
  | .main, c => renderCef c

/-- Model of template.Execute for the CEF template: rendering against a CEF
record resolves every placeholder, so it succeeds. -/
def execTemplate (t : Tmpl) (c : CEF) : Except String String :=
  .ok (renderTmpl t c)

end cef

/-- CEF.randomize.  `nowSec` is the wall clock (unix seconds) at the call and
`r` the global source state; fields draw in source order.  Every data field
is assigned; only the compiled-template slice is untouched. -/
def CEF.randomize (c : CEF) (nowSec : Int) (r : Rng) : CEF × Rng :=
  let (layout, r) := pickString cef.timeLayouts r
  let (facility, r) := pickString cef.facilities r
  let (priority, r) := pickString cef.priorities r
  let (addr, r) := random.IPv4 r
  let (cefVersion, r) := intn 2 r
  let (vendor, r) := pickString cef.vendors r
  let (product, r) := pickString cef.products r
  let (version, r) := pickString cef.versions r
  let (module, r) := pickString cef.modules r
  let (violation, r) := pickString cef.violations r
  let (sevRaw, r) := intn 10 r
  let (srcAddr, r) := random.IPv4 r
  let (geo, r) := pickString cef.locations r
  let (srcPort, r) := random.Port r
  let (method, r) := pickString cef.methods r
  let (request, r) := pickString cef.requests r
  let (message, r) := pickString cef.messages r
  let (eventId, r) := intn 1000 r
  let (txId, r) := intn 100000 r
  let (profile, r) := pickString cef.profiles r
  let (ppeRaw, r) := intn 9 r
  let (sessBytes, r) := readBytes 16 r
  let (sevLabel, r) := pickString cef.severityLabels r
  let (vioCat, r) := pickString cef.violationCategory r
  let (action, r) := pickString cef.actions r
  ({ c with
      Timestamp := nowSec
      TimeLayout := layout
      Facility := facility
      Priority := priority
      Addr := addr
      CEFVersion := cefVersion
      Vendor := vendor
      Product := product
      Version := version
      Module := module
      Violation := violation
      Severity := sevRaw + 1
      SrcAddr := srcAddr
      Geo := geo
      SrcPort := srcPort
      Method := method
      Request := request
      Message := message
      EventID := eventId
      TxID := txId
      Profile := profile
      PPEID := "PPE" ++ showNat (ppeRaw + 1)
      SessID := hexEncode sessBytes
      SeverityLabel := sevLabel
      Year := cef.yearOf nowSec
      ViolationCategory := vioCat
      Action := action }, r)

/-- CEF.Next with the template engine's Execute as a parameter: pick one
template index uniformly, execute it against the current record, and only on
success randomize the record again. -/
def CEF.NextE (exec : cef.Tmpl → CEF → Except String String)
    (c : CEF) (nowSec : Int) (r : Rng) :
    Except String String × CEF × Rng :=
  let i := (intn c.templates.length r).1
  let r' := (intn c.templates.length r).2
  match exec (c.templates.getD i .main) c with
  | .error e => (.error e, c, r')
  | .ok buf => (.ok buf, (c.randomize nowSec r').1, (c.randomize nowSec r').2)

/-- CEF.Next: NextE with the actual template rendering. -/
def CEF.Next (c : CEF) (nowSec : Int) (r : Rng) :
    Except String String × CEF × Rng :=
  CEF.NextE cef.execTemplate c nowSec r

/-- cef.New.  As firewall.New: unpack the external config, randomize a zero
record, compile the declared templates. -/
def cef.New (unpack : Except String Unit)
    (compile : cef.Tmpl → Except String Unit)
    (nowSec : Int) (r : Rng) : Except NewError CEF :=
  match unpack with
  | .error e => .error (.config e)
  | .ok _ =>
    let c := (CEF.randomize {} nowSec r).1
    match compileAll compile cef.msgTemplates with
    | .error e => .error (.template e)
    | .ok ts => .ok { c with templates := ts }

namespace generator

/-- Modelled from the spec: the generator registry of pkg/generator, which is
not among the given sources.  A Go map from format id to constructor is
modelled as an association list where the latest Register for a key shadows
earlier ones. -/
def Register {κ : Type} (id : String) (ctor : κ) (reg : List (String × κ)) :
    List (String × κ) :=
  (id, ctor) :: reg

/-- Modelled from the spec: Lookup resolves a format id to the most recently
registered constructor, and reports not found (none) for an id that was
never registered. -/
def Lookup {κ : Type} (id : String) (reg : List (String × κ)) : Option κ :=
  (reg.find? (fun p => p.1 == id)).map (fun p => p.2)

end generator

theorem intn_lt (n : Nat) (r : Rng) (h : 0 < n) : (intn n r).1 < n :=
  Nat.mod_lt _ h

theorem getD_mod_mem {α : Type} (l : List α) (x : Nat) (d : α) (h : l ≠ []) :
    l.getD (x % l.length) d ∈ l := by
  have hlt : x % l.length < l.length := Nat.mod_lt _ (List.length_pos.mpr h)
  rw [List.getD_eq_getElem?_getD, List.getElem?_eq_getElem hlt, Option.getD_some]
  exact List.getElem_mem hlt

theorem pickString_mem (l : List String) (r : Rng) (h : l ≠ []) :
    (pickString l r).1 ∈ l :=
  getD_mod_mem l (r.draws.headD 0) "" h

theorem pickNat_mem (l : List Nat) (r : Rng) (h : l ≠ []) :
    (pickNat l r).1 ∈ l :=
  getD_mod_mem l (r.draws.headD 0) 0 h

theorem noNL_append (a b : String) : noNL (a ++ b) ↔ noNL a ∧ noNL b := by
  unfold noNL
  rw [String.data_append]
  exact List.forall_mem_append

theorem digitChar_ne_nl (n : Nat) : digitChar n ≠ '\n' := by
  unfold digitChar
  split <;> decide

theorem hexDigit_ne_nl (n : Nat) : hexDigit n ≠ '\n' := by
  unfold hexDigit
  split <;> decide

theorem natDigitsAux_ne_nl (fuel : Nat) :
    ∀ (n : Nat) (acc : List Char), (∀ c ∈ acc, c ≠ '\n') →
      ∀ c ∈ natDigitsAux fuel n acc, c ≠ '\n' := by
  induction fuel with
  | zero =>
    intro n acc hacc
    simpa [natDigitsAux] using hacc
  | succ k ih =>
    intro n acc hacc
    rw [natDigitsAux]
    split
    · intro c hc
      rcases List.mem_cons.mp hc with h | h
      · exact h ▸ digitChar_ne_nl n
      · exact hacc c h
    · refine ih _ _ ?_
      intro c hc
      rcases List.mem_cons.mp hc with h | h
      · exact h ▸ digitChar_ne_nl n
      · exact hacc c h

theorem noNL_showNat (n : Nat) : noNL (showNat n) := by
  intro c hc
  exact natDigitsAux_ne_nl (n + 1) n [] (by intro c hc; cases hc) c hc

theorem noNL_showInt (i : Int) : noNL (showInt i) := by
  unfold showInt
  split
  · exact (noNL_append _ _).mpr ⟨by decide, noNL_showNat _⟩
  · exact noNL_showNat _

theorem noNL_pad2 (n : Nat) : noNL (pad2 n) := by
  unfold pad2
  split
  · exact (noNL_append _ _).mpr ⟨by decide, noNL_showNat _⟩
  · exact noNL_showNat _

theorem noNL_pad4 (n : Nat) : noNL (pad4 n) := by
  unfold pad4
  split
  · exact (noNL_append _ _).mpr ⟨by decide, noNL_showNat _⟩
  · split
    · exact (noNL_append _ _).mpr ⟨by decide, noNL_showNat _⟩
    · split
      · exact (noNL_append _ _).mpr ⟨by decide, noNL_showNat _⟩
      · exact noNL_showNat _

theorem noNL_ipString (ip : IP) : noNL (ipString ip) := by
  unfold ipString
  simp only [noNL_append]
  exact ⟨⟨⟨⟨⟨⟨noNL_showNat _, by decide⟩, noNL_showNat _⟩, by decide⟩,
    noNL_showNat _⟩, by decide⟩, noNL_showNat _⟩

theorem noNL_formatClock (ns : Int) : noNL (formatClock ns) := by
  unfold formatClock
  simp only [noNL_append]
  exact ⟨⟨⟨⟨noNL_pad2 _, by decide⟩, noNL_pad2 _⟩, by decide⟩, noNL_pad2 _⟩

theorem noNL_formatUTCDate (sec : Int) : noNL (formatUTCDate sec) := by
  unfold formatUTCDate
  simp only [noNL_append]
  exact ⟨⟨⟨⟨noNL_pad4 _, by decide⟩, noNL_pad2 _⟩, by decide⟩, noNL_pad2 _⟩

theorem getD_pred {α : Type} (l : List α) (i : Nat) (d : α) (p : α → Prop)
    (hl : ∀ x ∈ l, p x) (hd : p d) : p (l.getD i d) := by
  rw [List.getD_eq_getElem?_getD]
  cases h : l[i]? with
  | none => exact hd
  | some x => exact hl x (List.getElem?_mem h)

theorem noNL_monthName (m : Nat) : noNL (monthName m) := by
  unfold monthName
  exact getD_pred _ _ _ noNL (by decide) (by decide)

theorem noNL_hexEncode (bs : List Nat) : noNL (hexEncode bs) := by
  induction bs with
  | nil => decide
  | cons b bs ih =>
    rw [hexEncode]
    refine (noNL_append _ _).mpr ⟨?_, ih⟩
    intro c hc
    rcases List.mem_cons.mp hc with h | h
    · exact h ▸ hexDigit_ne_nl _
    · rcases List.mem_cons.mp h with h2 | h2
      · exact h2 ▸ hexDigit_ne_nl _
      · cases h2

theorem str_ne_empty_of_len (s : String) (h : 0 < s.length) : s ≠ "" := by
  intro hc
  rw [hc] at h
  exact Nat.lt_irrefl 0 h

/-- Declared-domain invariant of a Firewall record: every lookup-table field
is a member of its table, ports lie in [0, 65535], and the other bounded
draws lie below their rand.Intn bound. -/
def Firewall.InDomain (f : Firewall) : Prop :=
  f.DevName ∈ firewall.devices ∧
  f.DevId ∈ firewall.devid ∧
  f.LogId ≤ 9 ∧
  f.User ∈ firewall.users ∧
  f.Server ∈ firewall.servers ∧
  f.SrcPort ≤ 65535 ∧
  f.DstPort ≤ 65535 ∧
  f.PolicyId ≤ 255 ∧
  f.SessionId ≤ 65535 ∧
  f.Interface1 ∈ firewall.interfaces ∧
  f.Interface2 ∈ firewall.interfaces ∧
  f.InterfaceRole1 ∈ firewall.roles ∧
  f.InterfaceRole2 ∈ firewall.roles ∧
  f.Protocol ∈ firewall.protocols ∧
  f.QueryName ∈ firewall.queries ∧
  f.QueryType ∈ firewall.queryTypes ∧
  f.XId ≤ 255 ∧
  f.Level ∈ firewall.levels ∧
  f.TrafficAction ∈ firewall.trafficActions ∧
  f.SentPackets ≤ 65535 ∧
  f.Duration ≤ 1023

/-- Declared-domain invariant of a CEF record: every lookup-table field is a
member of its table, the source port lies in [0, 65535], Severity in
[1, 10], and the other bounded draws lie below their rand.Intn bound. -/
def CEF.InDomain (c : CEF) : Prop :=
  c.TimeLayout ∈ cef.timeLayouts ∧
  c.Facility ∈ cef.facilities ∧
  c.Priority ∈ cef.priorities ∧
  c.CEFVersion ≤ 1 ∧
  c.Vendor ∈ cef.vendors ∧
  c.Product ∈ cef.products ∧
  c.Version ∈ cef.versions ∧
  c.Module ∈ cef.modules ∧
  c.Violation ∈ cef.violations ∧
  1 ≤ c.Severity ∧ c.Severity ≤ 10 ∧
  c.Geo ∈ cef.locations ∧
  c.SrcPort ≤ 65535 ∧
  c.Method ∈ cef.methods ∧
  c.Request ∈ cef.requests ∧
  c.Message ∈ cef.messages ∧
  c.EventID ≤ 999 ∧
  c.TxID ≤ 99999 ∧
  c.Profile ∈ cef.profiles ∧
  c.SeverityLabel ∈ cef.severityLabels ∧
  c.ViolationCategory ∈ cef.violationCategory ∧
  c.Action ∈ cef.actions

theorem firewall_randomize_InDomain (f : Firewall) (nowNs : Int) (seeded r : Rng) :
    (Firewall.randomize f nowNs seeded r).1.InDomain := by
  refine ⟨pickString_mem _ _ (by decide), pickString_mem _ _ (by decide),
    Nat.le_of_lt_succ (intn_lt _ _ (by decide)),
    pickString_mem _ _ (by decide), pickString_mem _ _ (by decide),
    Nat.le_of_lt_succ (intn_lt _ _ (by decide)),
    Nat.le_of_lt_succ (intn_lt _ _ (by decide)),
    Nat.le_of_lt_succ (intn_lt _ _ (by decide)),
    Nat.le_of_lt_succ (intn_lt _ _ (by decide)),
    pickString_mem _ _ (by decide), pickString_mem _ _ (by decide),
    pickString_mem _ _ (by decide), pickString_mem _ _ (by decide),
    pickNat_mem _ _ (by decide),
    pickString_mem _ _ (by decide), pickString_mem _ _ (by decide),
    Nat.le_of_lt_succ (intn_lt _ _ (by decide)),
    pickString_mem _ _ (by decide), pickString_mem _ _ (by decide),
    Nat.le_of_lt_succ (intn_lt _ _ (by decide)),
    Nat.le_of_lt_succ (intn_lt _ _ (by decide))⟩

theorem cef_randomize_InDomain (c : CEF) (nowSec : Int) (r : Rng) :
    (CEF.randomize c nowSec r).1.InDomain := by
  refine ⟨pickString_mem _ _ (by decide), pickString_mem _ _ (by decide),
    pickString_mem _ _ (by decide),
    Nat.le_of_lt_succ (intn_lt _ _ (by decide)),
    pickString_mem _ _ (by decide), pickString_mem _ _ (by decide),
    pickString_mem _ _ (by decide), pickString_mem _ _ (by decide),
    pickString_mem _ _ (by decide),
    Nat.succ_le_succ (Nat.zero_le _),
    Nat.succ_le_of_lt (intn_lt _ _ (by decide)),
    pickString_mem _ _ (by decide),
    Nat.le_of_lt_succ (intn_lt _ _ (by decide)),
    pickString_mem _ _ (by decide), pickString_mem _ _ (by decide),
    pickString_mem _ _ (by decide),
    Nat.le_of_lt_succ (intn_lt _ _ (by decide)),
    Nat.le_of_lt_succ (intn_lt _ _ (by decide)),
    pickString_mem _ _ (by decide), pickString_mem _ _ (by decide),
    pickString_mem _ _ (by decide), pickString_mem _ _ (by decide)⟩

set_option maxRecDepth 8192

theorem pickString_noNL (l : List String) (r : Rng) (hl : ∀ x ∈ l, noNL x) :
    noNL (pickString l r).1 :=
  getD_pred l _ "" noNL hl (by decide)

/-- The string fields a Firewall template can interpolate are newline free. -/
def Firewall.LineSafe (f : Firewall) : Prop :=
  noNL f.Timestamp ∧ noNL f.DevName ∧ noNL f.DevId ∧ noNL f.Level ∧
  noNL f.Vd ∧ noNL f.Timezone ∧ noNL f.User ∧ noNL f.Server ∧
  noNL f.Interface1 ∧ noNL f.Interface2 ∧ noNL f.InterfaceRole1 ∧
  noNL f.InterfaceRole2 ∧ noNL f.QueryName ∧ noNL f.QueryType ∧
  noNL f.TrafficAction

/-- The string fields the CEF template can interpolate are newline free. -/
def CEF.LineSafe (c : CEF) : Prop :=
  noNL c.Facility ∧ noNL c.Priority ∧ noNL c.Vendor ∧ noNL c.Product ∧
  noNL c.Version ∧ noNL c.Module ∧ noNL c.Violation ∧ noNL c.Geo ∧
  noNL c.Method ∧ noNL c.Request ∧ noNL c.Message ∧ noNL c.Profile ∧
  noNL c.PPEID ∧ noNL c.SessID ∧ noNL c.SeverityLabel ∧
  noNL c.ViolationCategory ∧ noNL c.Action

theorem devices_noNL : ∀ x ∈ firewall.devices, noNL x := by decide
theorem devid_noNL : ∀ x ∈ firewall.devid, noNL x := by decide
theorem users_noNL : ∀ x ∈ firewall.users, noNL x := by decide
theorem servers_noNL : ∀ x ∈ firewall.servers, noNL x := by decide
theorem fw_interfaces_noNL : ∀ x ∈ firewall.interfaces, noNL x := by decide
theorem fw_roles_noNL : ∀ x ∈ firewall.roles, noNL x := by decide
theorem queries_noNL : ∀ x ∈ firewall.queries, noNL x := by decide
theorem queryTypes_noNL : ∀ x ∈ firewall.queryTypes, noNL x := by decide
theorem levels_noNL : ∀ x ∈ firewall.levels, noNL x := by decide
theorem trafficActions_noNL : ∀ x ∈ firewall.trafficActions, noNL x := by decide

theorem timeLayouts_noNL : ∀ x ∈ cef.timeLayouts, noNL x := by decide
theorem facilities_noNL : ∀ x ∈ cef.facilities, noNL x := by decide
theorem priorities_noNL : ∀ x ∈ cef.priorities, noNL x := by decide
theorem vendors_noNL : ∀ x ∈ cef.vendors, noNL x := by decide
theorem products_noNL : ∀ x ∈ cef.products, noNL x := by decide
theorem versions_noNL : ∀ x ∈ cef.versions, noNL x := by decide
theorem modules_noNL : ∀ x ∈ cef.modules, noNL x := by decide
theorem violations_noNL : ∀ x ∈ cef.violations, noNL x := by decide
theorem locations_noNL : ∀ x ∈ cef.locations, noNL x := by decide
theorem methods_noNL : ∀ x ∈ cef.methods, noNL x := by decide
theorem requests_noNL : ∀ x ∈ cef.requests, noNL x := by decide
theorem messages_noNL : ∀ x ∈ cef.messages, noNL x := by decide
theorem profiles_noNL : ∀ x ∈ cef.profiles, noNL x := by decide
theorem severityLabels_noNL : ∀ x ∈ cef.severityLabels, noNL x := by decide
theorem violationCategory_noNL : ∀ x ∈ cef.violationCategory, noNL x := by decide
theorem cefActions_noNL : ∀ x ∈ cef.actions, noNL x := by decide

set_option maxRecDepth 4000 in
theorem firewall_randomize_LineSafe (f : Firewall) (nowNs : Int) (seeded r : Rng) :
    (Firewall.randomize f nowNs seeded r).1.LineSafe := by
  refine ⟨noNL_formatClock _,
    pickString_noNL _ _ devices_noNL, pickString_noNL _ _ devid_noNL,
    pickString_noNL _ _ levels_noNL, ?_, ?_,
    pickString_noNL _ _ users_noNL, pickString_noNL _ _ servers_noNL,
    pickString_noNL _ _ fw_interfaces_noNL, pickString_noNL _ _ fw_interfaces_noNL,
    pickString_noNL _ _ fw_roles_noNL, pickString_noNL _ _ fw_roles_noNL,
    pickString_noNL _ _ queries_noNL, pickString_noNL _ _ queryTypes_noNL,
    pickString_noNL _ _ trafficActions_noNL⟩
  · exact (by decide : noNL "root")
  · exact (by decide : noNL "-0500")

set_option maxRecDepth 4000 in
theorem cef_randomize_LineSafe (c : CEF) (nowSec : Int) (r : Rng) :
    (CEF.randomize c nowSec r).1.LineSafe := by
  refine ⟨pickString_noNL _ _ facilities_noNL, pickString_noNL _ _ priorities_noNL,
    pickString_noNL _ _ vendors_noNL, pickString_noNL _ _ products_noNL,
    pickString_noNL _ _ versions_noNL, pickString_noNL _ _ modules_noNL,
    pickString_noNL _ _ violations_noNL, pickString_noNL _ _ locations_noNL,
    pickString_noNL _ _ methods_noNL, pickString_noNL _ _ requests_noNL,
    pickString_noNL _ _ messages_noNL, pickString_noNL _ _ profiles_noNL,
    (noNL_append _ _).mpr ⟨by decide, noNL_showNat _⟩,
    noNL_hexEncode _,
    pickString_noNL _ _ severityLabels_noNL,
    pickString_noNL _ _ violationCategory_noNL,
    pickString_noNL _ _ cefActions_noNL⟩

theorem noNL_formatCefTime (layout : String) (sec : Int) :
    noNL (cef.formatCefTime layout sec) := by
  unfold cef.formatCefTime
  simp only [noNL_append]
  refine ⟨⟨⟨⟨noNL_monthName _, by decide⟩, ?_⟩, by decide⟩,
    ⟨⟨⟨⟨noNL_pad2 _, by decide⟩, noNL_pad2 _⟩, by decide⟩, noNL_pad2 _⟩⟩
  split
  · exact noNL_showNat _
  · exact noNL_pad2 _
theorem renderEventUser_noNL (f : Firewall) (h : f.LineSafe) :
    noNL (firewall.renderEventUser f) := by
  obtain ⟨h1, h2, h3, h4, h5, h6, h7, h8, h9, h10, h11, h12, h13, h14, h15⟩ := h
  unfold firewall.renderEventUser
  simp only [noNL_append]
  exact ⟨⟨⟨⟨⟨⟨⟨⟨⟨⟨⟨⟨⟨⟨⟨⟨⟨⟨⟨⟨⟨⟨⟨⟨⟨⟨⟨⟨⟨⟨(by decide), noNL_formatUTCDate _⟩, (by decide)⟩, h1⟩, (by decide)⟩, h2⟩, (by decide)⟩, h3⟩, (by decide)⟩, noNL_showNat _⟩, (by decide)⟩, h4⟩, (by decide)⟩, h5⟩, (by decide)⟩, noNL_showInt _⟩, (by decide)⟩, h6⟩, (by decide)⟩, noNL_ipString _⟩, (by decide)⟩, h7⟩, (by decide)⟩, h8⟩, (by decide)⟩, h8⟩, (by decide)⟩, h7⟩, (by decide)⟩, noNL_ipString _⟩, (by decide)⟩

theorem renderEventSystem_noNL (f : Firewall) (h : f.LineSafe) :
    noNL (firewall.renderEventSystem f) := by
  obtain ⟨h1, h2, h3, h4, h5, h6, h7, h8, h9, h10, h11, h12, h13, h14, h15⟩ := h
  unfold firewall.renderEventSystem
  simp only [noNL_append]
  exact ⟨⟨⟨⟨⟨⟨⟨⟨⟨⟨⟨⟨⟨⟨⟨⟨⟨⟨⟨(by decide), noNL_formatUTCDate _⟩, (by decide)⟩, h1⟩, (by decide)⟩, h2⟩, (by decide)⟩, h3⟩, (by decide)⟩, noNL_showNat _⟩, (by decide)⟩, h4⟩, (by decide)⟩, h5⟩, (by decide)⟩, noNL_showInt _⟩, (by decide)⟩, h6⟩, (by decide)⟩, (by decide)⟩

theorem renderUtmDns_noNL (f : Firewall) (h : f.LineSafe) :
    noNL (firewall.renderUtmDns f) := by
  obtain ⟨h1, h2, h3, h4, h5, h6, h7, h8, h9, h10, h11, h12, h13, h14, h15⟩ := h
  unfold firewall.renderUtmDns
  simp only [noNL_append]
  exact ⟨⟨⟨⟨⟨⟨⟨⟨⟨⟨⟨⟨⟨⟨⟨⟨⟨⟨⟨⟨⟨⟨⟨⟨⟨⟨⟨⟨⟨⟨⟨⟨⟨⟨⟨⟨⟨⟨⟨⟨⟨⟨⟨⟨⟨⟨(by decide), noNL_formatUTCDate _⟩, (by decide)⟩, h1⟩, (by decide)⟩, h2⟩, (by decide)⟩, h3⟩, (by decide)⟩, noNL_showNat _⟩, (by decide)⟩, h4⟩, (by decide)⟩, h5⟩, (by decide)⟩, noNL_showInt _⟩, (by decide)⟩, h6⟩, (by decide)⟩, noNL_showNat _⟩, (by decide)⟩, noNL_showNat _⟩, (by decide)⟩, noNL_ipString _⟩, (by decide)⟩, noNL_showNat _⟩, (by decide)⟩, h9⟩, (by decide)⟩, h11⟩, (by decide)⟩, noNL_ipString _⟩, (by decide)⟩, h10⟩, (by decide)⟩, h12⟩, (by decide)⟩, noNL_showNat _⟩, (by decide)⟩, h8⟩, (by decide)⟩, noNL_showNat _⟩, (by decide)⟩, h13⟩, (by decide)⟩, h14⟩, (by decide)⟩

theorem renderTrafficForward_noNL (f : Firewall) (h : f.LineSafe) :
    noNL (firewall.renderTrafficForward f) := by
  obtain ⟨h1, h2, h3, h4, h5, h6, h7, h8, h9, h10, h11, h12, h13, h14, h15⟩ := h
  unfold firewall.renderTrafficForward
  simp only [noNL_append]
  exact ⟨⟨⟨⟨⟨⟨⟨⟨⟨⟨⟨⟨⟨⟨⟨⟨⟨⟨⟨⟨⟨⟨⟨⟨⟨⟨⟨⟨⟨⟨⟨⟨⟨⟨⟨⟨⟨⟨⟨⟨⟨⟨⟨⟨⟨⟨⟨⟨⟨(by decide), noNL_formatUTCDate _⟩, (by decide)⟩, h1⟩, (by decide)⟩, h2⟩, (by decide)⟩, h3⟩, (by decide)⟩, noNL_showNat _⟩, (by decide)⟩, h4⟩, (by decide)⟩, h5⟩, (by decide)⟩, noNL_showInt _⟩, (by decide)⟩, noNL_ipString _⟩, (by decide)⟩, noNL_showNat _⟩, (by decide)⟩, h9⟩, (by decide)⟩, h11⟩, (by decide)⟩, noNL_ipString _⟩, (by decide)⟩, noNL_showNat _⟩, (by decide)⟩, h10⟩, (by decide)⟩, h12⟩, (by decide)⟩, noNL_showNat _⟩, (by decide)⟩, noNL_showNat _⟩, (by decide)⟩, h15⟩, (by decide)⟩, noNL_showNat _⟩, (by decide)⟩, (by decide)⟩, noNL_showNat _⟩, (by decide)⟩, noNL_showNat _⟩, (by decide)⟩, noNL_showNat _⟩, (by decide)⟩, noNL_showNat _⟩, (by decide)⟩

theorem renderCef_noNL (c : CEF) (h : c.LineSafe) :
    noNL (cef.renderCef c) := by
  obtain ⟨h1, h2, h3, h4, h5, h6, h7, h8, h9, h10, h11, h12, h13, h14, h15, h16, h17⟩ := h
  unfold cef.renderCef
  simp only [noNL_append]
  exact ⟨⟨⟨⟨⟨⟨⟨⟨⟨⟨⟨⟨⟨⟨⟨⟨⟨⟨⟨⟨⟨⟨⟨⟨⟨⟨⟨⟨⟨⟨⟨⟨⟨⟨⟨⟨⟨⟨⟨⟨⟨⟨⟨⟨⟨⟨⟨⟨⟨⟨noNL_formatCefTime _ _, (by decide)⟩, h1⟩, (by decide)⟩, h2⟩, (by decide)⟩, noNL_ipString _⟩, (by decide)⟩, noNL_showNat _⟩, (by decide)⟩, h3⟩, (by decide)⟩, h4⟩, (by decide)⟩, h5⟩, (by decide)⟩, h6⟩, (by decide)⟩, h7⟩, (by decide)⟩, noNL_showNat _⟩, (by decide)⟩, noNL_ipString _⟩, (by decide)⟩, (by split <;> first | decide | exact (noNL_append _ _).mpr ⟨(noNL_append _ _).mpr ⟨by decide, h8⟩, by decide⟩)⟩, (by decide)⟩, noNL_showNat _⟩, (by decide)⟩, h9⟩, (by decide)⟩, h10⟩, (by decide)⟩, h11⟩, (by decide)⟩, noNL_showNat _⟩, (by decide)⟩, noNL_showNat _⟩, (by decide)⟩, h12⟩, (by decide)⟩, h13⟩, (by decide)⟩, h14⟩, (by decide)⟩, h15⟩, (by decide)⟩, noNL_showInt _⟩, (by decide)⟩, (by split <;> first | decide | exact (noNL_append _ _).mpr ⟨(noNL_append _ _).mpr ⟨by decide, h16⟩, by decide⟩)⟩, (by decide)⟩, h17⟩


theorem renderTmpl_noNL (t : firewall.Tmpl) (f : Firewall) (h : f.LineSafe) :
    noNL (firewall.renderTmpl t f) := by
  cases t with
  | eventUser => exact renderEventUser_noNL f h
  | eventSystem => exact renderEventSystem_noNL f h
  | utmDns => exact renderUtmDns_noNL f h
  | trafficForward => exact renderTrafficForward_noNL f h

theorem renderEventUser_ne_empty (f : Firewall) : firewall.renderEventUser f ≠ "" := by
  apply str_ne_empty_of_len
  unfold firewall.renderEventUser
  simp only [String.length_append]
  have h : ("date=" : String).length = 5 := rfl
  omega

theorem renderEventSystem_ne_empty (f : Firewall) : firewall.renderEventSystem f ≠ "" := by
  apply str_ne_empty_of_len
  unfold firewall.renderEventSystem
  simp only [String.length_append]
  have h : ("date=" : String).length = 5 := rfl
  omega

theorem renderUtmDns_ne_empty (f : Firewall) : firewall.renderUtmDns f ≠ "" := by
  apply str_ne_empty_of_len
  unfold firewall.renderUtmDns
  simp only [String.length_append]
  have h : ("date=" : String).length = 5 := rfl
  omega

theorem renderTrafficForward_ne_empty (f : Firewall) : firewall.renderTrafficForward f ≠ "" := by
  apply str_ne_empty_of_len
  unfold firewall.renderTrafficForward
  simp only [String.length_append]
  have h : ("date=" : String).length = 5 := rfl
  omega

theorem renderTmpl_ne_empty (t : firewall.Tmpl) (f : Firewall) :
    firewall.renderTmpl t f ≠ "" := by
  cases t with
  | eventUser => exact renderEventUser_ne_empty f
  | eventSystem => exact renderEventSystem_ne_empty f
  | utmDns => exact renderUtmDns_ne_empty f
  | trafficForward => exact renderTrafficForward_ne_empty f

theorem renderCef_ne_empty (c : CEF) : cef.renderCef c ≠ "" := by
  apply str_ne_empty_of_len
  unfold cef.renderCef
  simp only [String.length_append]
  have h : (" <" : String).length = 2 := rfl
  omega

/-- A Firewall record as it exists after construction or any Next call: the
output of some randomize pass, with some compiled-template set. -/
def Firewall.Randomized (g : Firewall) : Prop :=
  ∃ f nowNs seeded r ts,
    g = { (Firewall.randomize f nowNs seeded r).1 with Templates := ts }

/-- A CEF record as it exists after construction or any Next call. -/
def CEF.Randomized (g : CEF) : Prop :=
  ∃ c nowSec r ts, g = { (CEF.randomize c nowSec r).1 with templates := ts }

theorem firewall_Randomized_LineSafe (g : Firewall) (h : g.Randomized) :
    g.LineSafe := by
  obtain ⟨f, nowNs, seeded, r, ts, rfl⟩ := h
  exact firewall_randomize_LineSafe f nowNs seeded r

theorem cef_Randomized_LineSafe (g : CEF) (h : g.Randomized) : g.LineSafe := by
  obtain ⟨c, nowSec, r, ts, rfl⟩ := h
  exact cef_randomize_LineSafe c nowSec r

theorem firewall_Randomized_InDomain (g : Firewall) (h : g.Randomized) :
    g.InDomain := by
  obtain ⟨f, nowNs, seeded, r, ts, rfl⟩ := h
  exact firewall_randomize_InDomain f nowNs seeded r

theorem cef_Randomized_InDomain (g : CEF) (h : g.Randomized) : g.InDomain := by
  obtain ⟨c, nowSec, r, ts, rfl⟩ := h
  exact cef_randomize_InDomain c nowSec r

theorem compileAll_ok {τ : Type} (compile : τ → Except String Unit) (l : List τ)
    (h : ∀ t ∈ l, compile t = .ok ()) : compileAll compile l = .ok l := by
  induction l with
  | nil => rfl
  | cons t ts ih =>
    have h1 : compile t = .ok () := h t (List.mem_cons_self t ts)
    have h2 : compileAll compile ts = .ok ts :=
      ih (fun x hx => h x (List.mem_cons_of_mem t hx))
    rw [compileAll, h1, h2]

theorem compileAll_isOk_iff {τ : Type} (compile : τ → Except String Unit) (l : List τ) :
    (∃ cs, compileAll compile l = .ok cs) ↔ ∀ t ∈ l, compile t = .ok () := by
  induction l with
  | nil => simp [compileAll]
  | cons t ts ih =>
    rw [List.forall_mem_cons, ← ih]
    simp only [compileAll]
    cases h1 : compile t with
    | error e => simp [h1]
    | ok u =>
      cases u
      cases h2 : compileAll compile ts with
      | error e => simp [h2]
      | ok cs => simp [h2]

theorem compileAll_ok_eq {τ : Type} (compile : τ → Except String Unit)
    (l : List τ) (cs : List τ) (h : compileAll compile l = .ok cs) : cs = l := by
  induction l generalizing cs with
  | nil =>
    rw [compileAll] at h
    cases h
    rfl
  | cons t ts ih =>
    rw [compileAll] at h
    cases h1 : compile t with
    | error e =>
      rw [h1] at h
      cases h
    | ok u =>
      cases u
      rw [h1] at h
      cases h2 : compileAll compile ts with
      | error e =>
        rw [h2] at h
        cases h
      | ok cs2 =>
        rw [h2] at h
        cases h
        rw [ih cs2 h2]

theorem firewall_New_ok (u : Except String Unit)
    (cp : firewall.Tmpl → Except String Unit) (nowNs : Int) (seeded r : Rng)
    (g : Firewall) (h : firewall.New u cp nowNs seeded r = .ok g) :
    u = .ok () ∧ (∀ t ∈ firewall.msgTemplates, cp t = .ok ()) ∧
    g = { (Firewall.randomize {} nowNs seeded r).1 with
            Templates := firewall.msgTemplates } := by
  cases u with
  | error e => exact Except.noConfusion h
  | ok u0 =>
    cases u0
    cases h2 : compileAll cp firewall.msgTemplates with
    | error e =>
      simp only [firewall.New, h2] at h
      exact Except.noConfusion h
    | ok cs =>
      simp only [firewall.New, h2, Except.ok.injEq] at h
      have hcs : cs = firewall.msgTemplates := compileAll_ok_eq _ _ _ h2
      subst hcs
      exact ⟨rfl, (compileAll_isOk_iff cp _).mp ⟨_, h2⟩, h.symm⟩

theorem cef_New_ok (u : Except String Unit)
    (cp : cef.Tmpl → Except String Unit) (nowSec : Int) (r : Rng)
    (g : CEF) (h : cef.New u cp nowSec r = .ok g) :
    u = .ok () ∧ (∀ t ∈ cef.msgTemplates, cp t = .ok ()) ∧
    g = { (CEF.randomize {} nowSec r).1 with templates := cef.msgTemplates } := by
  cases u with
  | error e => exact Except.noConfusion h
  | ok u0 =>
    cases u0
    cases h2 : compileAll cp cef.msgTemplates with
    | error e =>
      simp only [cef.New, h2] at h
      exact Except.noConfusion h
    | ok cs =>
      simp only [cef.New, h2, Except.ok.injEq] at h
      have hcs : cs = cef.msgTemplates := compileAll_ok_eq _ _ _ h2
      subst hcs
      exact ⟨rfl, (compileAll_isOk_iff cp _).mp ⟨_, h2⟩, h.symm⟩

theorem firewall_New_ok_of (cp : firewall.Tmpl → Except String Unit)
    (hcp : ∀ t ∈ firewall.msgTemplates, cp t = .ok ())
    (nowNs : Int) (seeded r : Rng) :
    firewall.New (.ok ()) cp nowNs seeded r =
      .ok { (Firewall.randomize {} nowNs seeded r).1 with
              Templates := firewall.msgTemplates } := by
  simp only [firewall.New, compileAll_ok cp _ hcp]

theorem cef_New_ok_of (cp : cef.Tmpl → Except String Unit)
    (hcp : ∀ t ∈ cef.msgTemplates, cp t = .ok ()) (nowSec : Int) (r : Rng) :
    cef.New (.ok ()) cp nowSec r =
      .ok { (CEF.randomize {} nowSec r).1 with templates := cef.msgTemplates } := by
  simp only [cef.New, compileAll_ok cp _ hcp]

theorem firewall_New_error (u : Except String Unit)
    (cp : firewall.Tmpl → Except String Unit) (nowNs : Int) (seeded r : Rng)
    (e : NewError) (h : firewall.New u cp nowNs seeded r = .error e) :
    (∃ m, u = .error m ∧ e = .config m) ∨
    (u = .ok () ∧ ∃ m, compileAll cp firewall.msgTemplates = .error m ∧
      e = .template m) := by
  cases u with
  | error m =>
    left
    have h' : (Except.error (NewError.config m) : Except NewError Firewall)
        = .error e := h
    exact ⟨m, rfl, (Except.error.inj h').symm⟩
  | ok u0 =>
    cases u0
    right
    cases h2 : compileAll cp firewall.msgTemplates with
    | error m =>
      simp only [firewall.New, h2, Except.error.injEq] at h
      exact ⟨rfl, m, rfl, h.symm⟩
    | ok cs =>
      simp only [firewall.New, h2] at h
      exact Except.noConfusion h

theorem cef_New_error (u : Except String Unit)
    (cp : cef.Tmpl → Except String Unit) (nowSec : Int) (r : Rng)
    (e : NewError) (h : cef.New u cp nowSec r = .error e) :
    (∃ m, u = .error m ∧ e = .config m) ∨
    (u = .ok () ∧ ∃ m, compileAll cp cef.msgTemplates = .error m ∧
      e = .template m) := by
  cases u with
  | error m =>
    left
    have h' : (Except.error (NewError.config m) : Except NewError CEF)
        = .error e := h
    exact ⟨m, rfl, (Except.error.inj h').symm⟩
  | ok u0 =>
    cases u0
    right
    cases h2 : compileAll cp cef.msgTemplates with
    | error m =>
      simp only [cef.New, h2, Except.error.injEq] at h
      exact ⟨rfl, m, rfl, h.symm⟩
    | ok cs =>
      simp only [cef.New, h2] at h
      exact Except.noConfusion h

theorem cefRenderTmpl_noNL (t : cef.Tmpl) (c : CEF) (h : c.LineSafe) :
    noNL (cef.renderTmpl t c) := by
  cases t
  exact renderCef_noNL c h

theorem cefRenderTmpl_ne_empty (t : cef.Tmpl) (c : CEF) :
    cef.renderTmpl t c ≠ "" := by
  cases t
  exact renderCef_ne_empty c

/-- The record of the documented firewall fixture: the claim's field values,
with Date fixed at unix second 97445 (1970-01-02 03:04:05 UTC). -/
def c1Record : Firewall :=
  { Timestamp := "03:04:05", Date := 97445, DevName := "testswitch3",
    DevId := "testrouter", LogId := 123456789, Level := "error", Vd := "root",
    User := "user07", Server := "srv7", SrcIp := ⟨142, 155, 32, 170⟩,
    Timezone := "-0500" }

/-- C1: rendering the event/user template against the fixture record yields
exactly the documented single line; in particular date is Date formatted as
2006-01-02 in UTC (1970-01-02), eventtime is Date's unix seconds (97445),
logid is "123456789", and msg is the documented FSSO-logon message. -/
theorem C1_event_user_fixture :
    firewall.renderEventUser c1Record =
      "date=1970-01-02 time=03:04:05 devname=\"testswitch3\" devid=\"testrouter\" logid=\"123456789\" type=\"event\" subtype=\"user\" level=\"error\" vd=\"root\" eventtime=97445 tz=\"-0500\" logdesc=\"FSSO logon authentication status\" srcip=142.155.32.170 user=\"user07\" server=\"srv7\" action=\"FSSO-logon\" msg=\"FSSO-logon event from FSSO_srv7: user user07 logged on 142.155.32.170\"" ∧
    formatUTCDate c1Record.Date = "1970-01-02" ∧
    showInt c1Record.Date = "97445" := by
  refine ⟨?_, by decide, by decide⟩
  decide

/-- C7: random.Port always returns a value at most 65535, and every value in
[0, 65535] is attainable, so the draw is over exactly that range. -/
theorem C7_port_range :
    (∀ r : Rng, (random.Port r).1 ≤ 65535) ∧
    (∀ v : Nat, v ≤ 65535 → ∃ r : Rng, (random.Port r).1 = v) := by
  constructor
  · intro r
    exact Nat.le_of_lt_succ (intn_lt 65536 r (by decide))
  · intro v hv
    exact ⟨⟨[v]⟩, Nat.mod_eq_of_lt (Nat.lt_succ_of_le hv)⟩

/-- C8: Randomtime returns the hour:minute:second rendering of a timestamp
lying in the twenty-minute window ending at the call time, and because it
reseeds the source from the clock first, its result is independent of the
source state at entry. -/
theorem C8_randomtime :
    (∀ (nowNs : Int) (seeded r : Rng),
      ∃ ts : Int, nowNs - random.lookbackNs ≤ ts ∧ ts < nowNs ∧
        (random.Randomtime nowNs seeded r).1 = formatClock ts ∧
        ∃ hh mm ss : Nat, hh < 24 ∧ mm < 60 ∧ ss < 60 ∧
          formatClock ts = pad2 hh ++ ":" ++ pad2 mm ++ ":" ++ pad2 ss) ∧
    (∀ (nowNs : Int) (seeded r r' : Rng),
      random.Randomtime nowNs seeded r = random.Randomtime nowNs seeded r') := by
  constructor
  · intro nowNs seeded r
    set d : Int := ((seeded.draws.headD 0 : Nat) : Int) % random.lookbackNs with hd
    have hd0 : 0 ≤ d := Int.emod_nonneg _ (by decide)
    have hdlt : d < random.lookbackNs :=
      Int.emod_lt_of_pos _ (by decide)
    refine ⟨nowNs - random.lookbackNs + d, by omega, by omega, rfl, ?_⟩
    set ts : Int := nowNs - random.lookbackNs + d
    set sod : Nat := ((ts / 1000000000) % 86400).toNat with hsod
    have h0 : 0 ≤ (ts / 1000000000) % 86400 := Int.emod_nonneg _ (by decide)
    have h1 : (ts / 1000000000) % 86400 < 86400 :=
      Int.emod_lt_of_pos _ (by decide)
    have hlt : sod < 86400 := by omega
    exact ⟨sod / 3600, sod % 3600 / 60, sod % 60, by omega, by omega, by omega, rfl⟩
  · intro nowNs seeded r r'
    rfl

/-- C9: registering twice under one id leaves only the second constructor
resolvable (last registration wins), and Lookup of a never-registered id
reports not found instead of a default constructor. -/
theorem C9_registry :
    (∀ (κ : Type) (id : String) (c1 c2 : κ) (reg : List (String × κ)),
      generator.Lookup id
        (generator.Register id c2 (generator.Register id c1 reg)) = some c2) ∧
    (∀ (κ : Type) (id : String) (reg : List (String × κ)),
      (∀ p ∈ reg, p.1 ≠ id) → generator.Lookup id reg = none) := by
  constructor
  · intro κ id c1 c2 reg
    unfold generator.Lookup generator.Register
    rw [List.find?_cons_of_pos _ (by simp)]
    rfl
  · intro κ id reg h
    unfold generator.Lookup
    rw [List.find?_eq_none.mpr]
    · rfl
    · intro p hp
      simpa using h p hp

/-- C3: after construction (a successful New) and after every Next call, the
current record satisfies its declared-domain invariant — every lookup-table
field is a member of its table, ports lie in [0, 65535] and the CEF Severity
in [1, 10] (see InDomain) — and every lookup table is non-empty. -/
theorem C3_field_domains :
    (∀ u cp nowNs seeded r g,
      firewall.New u cp nowNs seeded r = .ok g → g.InDomain) ∧
    (∀ (f : Firewall) (nowNs : Int) (seeded r : Rng),
      (Firewall.Next f nowNs seeded r).2.1.InDomain) ∧
    (∀ u cp nowSec r g, cef.New u cp nowSec r = .ok g → g.InDomain) ∧
    (∀ (c : CEF) (nowSec : Int) (r : Rng),
      (CEF.Next c nowSec r).2.1.InDomain) ∧
    (firewall.devices ≠ [] ∧ firewall.devid ≠ [] ∧ firewall.users ≠ [] ∧
      firewall.servers ≠ [] ∧ firewall.interfaces ≠ [] ∧ firewall.roles ≠ [] ∧
      firewall.protocols ≠ [] ∧ firewall.queries ≠ [] ∧
      firewall.queryTypes ≠ [] ∧ firewall.levels ≠ [] ∧
      firewall.trafficActions ≠ []) ∧
    (cef.timeLayouts ≠ [] ∧ cef.facilities ≠ [] ∧ cef.priorities ≠ [] ∧
      cef.vendors ≠ [] ∧ cef.products ≠ [] ∧ cef.versions ≠ [] ∧
      cef.modules ≠ [] ∧ cef.violations ≠ [] ∧ cef.locations ≠ [] ∧
      cef.methods ≠ [] ∧ cef.requests ≠ [] ∧ cef.messages ≠ [] ∧
      cef.profiles ≠ [] ∧ cef.severityLabels ≠ [] ∧
      cef.violationCategory ≠ [] ∧ cef.actions ≠ []) := by
  refine ⟨?_, ?_, ?_, ?_, by decide, by decide⟩
  · intro u cp nowNs seeded r g h
    obtain ⟨-, -, rfl⟩ := firewall_New_ok u cp nowNs seeded r g h
    exact firewall_randomize_InDomain {} nowNs seeded r
  · intro f nowNs seeded r
    exact firewall_randomize_InDomain f nowNs seeded (intn f.Templates.length r).2
  · intro u cp nowSec r g h
    obtain ⟨-, -, rfl⟩ := cef_New_ok u cp nowSec r g h
    exact cef_randomize_InDomain {} nowSec r
  · intro c nowSec r
    exact cef_randomize_InDomain c nowSec (intn c.templates.length r).2

/-- C4: for both formats, a constructed generator's record is always a
randomize output (after New and preserved across Next), and every successful
Next call on such a record returns a non-empty byte sequence containing no
newline character. -/
theorem C4_nonempty_no_newline :
    (∀ u cp nowNs seeded r g,
      firewall.New u cp nowNs seeded r = .ok g → g.Randomized) ∧
    (∀ (f : Firewall) (nowNs : Int) (seeded r : Rng),
      (Firewall.Next f nowNs seeded r).2.1.Randomized) ∧
    (∀ g : Firewall, g.Randomized → ∀ (nowNs : Int) (seeded r : Rng)
      (out : String), (Firewall.Next g nowNs seeded r).1 = .ok out →
        out ≠ "" ∧ noNL out) ∧
    (∀ u cp nowSec r g, cef.New u cp nowSec r = .ok g → g.Randomized) ∧
    (∀ (c : CEF) (nowSec : Int) (r : Rng),
      (CEF.Next c nowSec r).2.1.Randomized) ∧
    (∀ g : CEF, g.Randomized → ∀ (nowSec : Int) (r : Rng) (out : String),
      (CEF.Next g nowSec r).1 = .ok out → out ≠ "" ∧ noNL out) := by
  refine ⟨?_, ?_, ?_, ?_, ?_, ?_⟩
  · intro u cp nowNs seeded r g h
    obtain ⟨-, -, rfl⟩ := firewall_New_ok u cp nowNs seeded r g h
    exact ⟨{}, nowNs, seeded, r, firewall.msgTemplates, rfl⟩
  · intro f nowNs seeded r
    exact ⟨f, nowNs, seeded, (intn f.Templates.length r).2, f.Templates, rfl⟩
  · intro g hg nowNs seeded r out h
    have h' : (Except.ok (firewall.renderTmpl
        (g.Templates.getD ((intn g.Templates.length r).1) .eventUser) g) :
        Except String String) = .ok out := h
    rw [← Except.ok.inj h']
    exact ⟨renderTmpl_ne_empty _ _,
      renderTmpl_noNL _ _ (firewall_Randomized_LineSafe g hg)⟩
  · intro u cp nowSec r g h
    obtain ⟨-, -, rfl⟩ := cef_New_ok u cp nowSec r g h
    exact ⟨{}, nowSec, r, cef.msgTemplates, rfl⟩
  · intro c nowSec r
    exact ⟨c, nowSec, (intn c.templates.length r).2, c.templates, rfl⟩
  · intro g hg nowSec r out h
    have h' : (Except.ok (cef.renderTmpl
        (g.templates.getD ((intn g.templates.length r).1) .main) g) :
        Except String String) = .ok out := h
    rw [← Except.ok.inj h']
    exact ⟨cefRenderTmpl_ne_empty _ _,
      cefRenderTmpl_noNL _ _ (cef_Randomized_LineSafe g hg)⟩

/-- C5: construction fails exactly when config unpacking fails (a config
error) or a declared template fails to compile (a template error) — a failed
New yields an error and no generator — and a successful New has already run
one full randomization pass: its record is the randomize output of the zero
record (with the compiled template set attached). -/
theorem C5_construction :
    (∀ u cp nowNs seeded r,
      (∃ g, firewall.New u cp nowNs seeded r = .ok g) ↔
        (u = .ok () ∧ ∀ t ∈ firewall.msgTemplates, cp t = .ok ())) ∧
    (∀ u cp nowNs seeded r g, firewall.New u cp nowNs seeded r = .ok g →
      g = { (Firewall.randomize {} nowNs seeded r).1 with
              Templates := firewall.msgTemplates }) ∧
    (∀ u cp nowNs seeded r e, firewall.New u cp nowNs seeded r = .error e →
      (∃ m, u = .error m ∧ e = NewError.config m) ∨
      (u = .ok () ∧ ∃ m, compileAll cp firewall.msgTemplates = .error m ∧
        e = NewError.template m)) ∧
    (∀ u cp nowSec r,
      (∃ g, cef.New u cp nowSec r = .ok g) ↔
        (u = .ok () ∧ ∀ t ∈ cef.msgTemplates, cp t = .ok ())) ∧
    (∀ u cp nowSec r g, cef.New u cp nowSec r = .ok g →
      g = { (CEF.randomize {} nowSec r).1 with templates := cef.msgTemplates }) ∧
    (∀ u cp nowSec r e, cef.New u cp nowSec r = .error e →
      (∃ m, u = .error m ∧ e = NewError.config m) ∨
      (u = .ok () ∧ ∃ m, compileAll cp cef.msgTemplates = .error m ∧
        e = NewError.template m)) := by
  refine ⟨?_, ?_, ?_, ?_, ?_, ?_⟩
  · intro u cp nowNs seeded r
    constructor
    · rintro ⟨g, hg⟩
      obtain ⟨h1, h2, -⟩ := firewall_New_ok u cp nowNs seeded r g hg
      exact ⟨h1, h2⟩
    · rintro ⟨rfl, hcp⟩
      exact ⟨_, firewall_New_ok_of cp hcp nowNs seeded r⟩
  · intro u cp nowNs seeded r g h
    exact (firewall_New_ok u cp nowNs seeded r g h).2.2
  · intro u cp nowNs seeded r e h
    exact firewall_New_error u cp nowNs seeded r e h
  · intro u cp nowSec r
    constructor
    · rintro ⟨g, hg⟩
      obtain ⟨h1, h2, -⟩ := cef_New_ok u cp nowSec r g hg
      exact ⟨h1, h2⟩
    · rintro ⟨rfl, hcp⟩
      exact ⟨_, cef_New_ok_of cp hcp nowSec r⟩
  · intro u cp nowSec r g h
    exact (cef_New_ok u cp nowSec r g h).2.2
  · intro u cp nowSec r e h
    exact cef_New_error u cp nowSec r e h

/-- C6: when the template engine's Execute fails inside Next, the call
returns that error with no partial output, and the current record (and the
state the pick left) is unchanged — the re-randomization step does not run. -/
theorem C6_render_failure_atomic
    (execF : firewall.Tmpl → Firewall → Except String String)
    (execC : cef.Tmpl → CEF → Except String String)
    (f : Firewall) (c : CEF) (nF nC : Int) (sF rF rC : Rng) (eF eC : String)
    (hF : execF (f.Templates.getD (intn f.Templates.length rF).1 .eventUser) f
      = .error eF)
    (hC : execC (c.templates.getD (intn c.templates.length rC).1 .main) c
      = .error eC) :
    Firewall.NextE execF f nF sF rF =
      (.error eF, f, (intn f.Templates.length rF).2) ∧
    CEF.NextE execC c nC rC = (.error eC, c, (intn c.templates.length rC).2) := by
  constructor
  · show (match execF (f.Templates.getD (intn f.Templates.length rF).1
        .eventUser) f with
      | .error e => ((.error e : Except String String), f,
          (intn f.Templates.length rF).2)
      | .ok buf => (.ok buf, (f.randomize nF sF (intn f.Templates.length rF).2).1,
          (f.randomize nF sF (intn f.Templates.length rF).2).2)) = _
    rw [hF]
  · show (match execC (c.templates.getD (intn c.templates.length rC).1
        .main) c with
      | .error e => ((.error e : Except String String), c,
          (intn c.templates.length rC).2)
      | .ok buf => (.ok buf, (c.randomize nC (intn c.templates.length rC).2).1,
          (c.randomize nC (intn c.templates.length rC).2).2)) = _
    rw [hC]

/-- Witness for C6 at a concrete failing Execute: the error is returned and
the zero record is unchanged. -/
theorem C6_witness :
    Firewall.NextE (fun _ _ => .error "boom") {} 0 ⟨[]⟩ ⟨[]⟩ =
      (.error "boom", {}, ⟨[]⟩) ∧
    CEF.NextE (fun _ _ => .error "boom") {} 0 ⟨[]⟩ =
      (.error "boom", {}, ⟨[]⟩) :=
  C6_render_failure_atomic (fun _ _ => .error "boom") (fun _ _ => .error "boom")
    {} {} 0 0 ⟨[]⟩ ⟨[]⟩ ⟨[]⟩ "boom" "boom" rfl rfl

theorem firewall_Next_eq (f : Firewall) (nowNs : Int) (seeded r : Rng) :
    Firewall.Next f nowNs seeded r =
      (.ok (firewall.renderTmpl
          (f.Templates.getD (intn f.Templates.length r).1 .eventUser) f),
       (Firewall.randomize f nowNs seeded (intn f.Templates.length r).2).1,
       (Firewall.randomize f nowNs seeded (intn f.Templates.length r).2).2) :=
  rfl

theorem cef_Next_eq (c : CEF) (nowSec : Int) (r : Rng) :
    CEF.Next c nowSec r =
      (.ok (cef.renderTmpl
          (c.templates.getD (intn c.templates.length r).1 .main) c),
       (CEF.randomize c nowSec (intn c.templates.length r).2).1,
       (CEF.randomize c nowSec (intn c.templates.length r).2).2) :=
  rfl

/-- A firewall generator record as New builds it (zero record, compiled
templates attached), used as concrete input below. -/
def fw0 : Firewall := { Templates := firewall.msgTemplates }

/-- fw0 with ReceivedBytes set to 7: identical but for one field. -/
def fw7 : Firewall := { fw0 with ReceivedBytes := 7 }

/-- Counterexample to C2 as stated: Next does not perform a fresh full
randomization of every field — with identical clock and source streams, the
record after Next still differs according to the ReceivedBytes value held
before the call, which randomize never assigns. -/
theorem C2_counterexample :
    (Firewall.Next fw7 0 ⟨[]⟩ ⟨[]⟩).2.1.ReceivedBytes ≠
      (Firewall.Next fw0 0 ⟨[]⟩ ⟨[]⟩).2.1.ReceivedBytes ∧
    (Firewall.Next fw7 0 ⟨[]⟩ ⟨[]⟩).2.1.ReceivedBytes = fw7.ReceivedBytes := by
  exact ⟨by decide, rfl⟩

/-- C2 as amended: Next picks one template uniformly among the format's
alternatives (an index below four for the firewall's four templates, every
index attainable; the single CEF template for CEF), renders it against the
record exactly as it stood at entry, and only then re-randomizes the record
— re-drawing every field except the firewall's ReceivedBytes and Direction,
which are left unchanged. -/
theorem C2_next_flow :
    (∀ (f : Firewall) (nowNs : Int) (seeded r : Rng),
      f.Templates = firewall.msgTemplates →
      ∃ i : Nat, i = (intn 4 r).1 ∧ i < 4 ∧
        Firewall.Next f nowNs seeded r =
          (.ok (firewall.renderTmpl
              (firewall.msgTemplates.getD i .eventUser) f),
           (Firewall.randomize f nowNs seeded (intn 4 r).2).1,
           (Firewall.randomize f nowNs seeded (intn 4 r).2).2)) ∧
    (∀ i : Nat, i < 4 → ∃ r : Rng, (intn 4 r).1 = i) ∧
    (∀ (c : CEF) (nowSec : Int) (r : Rng), c.templates = cef.msgTemplates →
      CEF.Next c nowSec r =
        (.ok (cef.renderCef c),
         (CEF.randomize c nowSec (intn 1 r).2).1,
         (CEF.randomize c nowSec (intn 1 r).2).2)) ∧
    (∀ (f : Firewall) (nowNs : Int) (seeded r : Rng),
      (Firewall.randomize f nowNs seeded r).1.ReceivedBytes = f.ReceivedBytes ∧
      (Firewall.randomize f nowNs seeded r).1.Direction = f.Direction) := by
  refine ⟨?_, ?_, ?_, ?_⟩
  · intro f nowNs seeded r ht
    refine ⟨(intn 4 r).1, rfl, intn_lt _ _ (by decide), ?_⟩
    rw [firewall_Next_eq, ht]
    rfl
  · intro i hi
    exact ⟨⟨[i]⟩, Nat.mod_eq_of_lt hi⟩
  · intro c nowSec r ht
    have hlen : cef.msgTemplates.length = 1 := rfl
    have h0 : (intn 1 r).1 = 0 := Nat.mod_one _
    rw [cef_Next_eq, ht, hlen, h0]
    rfl
  · intro f nowNs seeded r
    exact ⟨rfl, rfl⟩

/-- C10: after every randomize pass (hence after construction and after
every Next call) SentBytes is SentPackets times 1500; ReceivedBytes is never
assigned (randomize carries it over, so it stays 0 from construction); and
the traffic/forward template writes the SentBytes field in both the sentbyte
and the rcvdbyte position, so those two values coincide in every rendered
line. -/
theorem C10_sentbytes :
    (∀ (f : Firewall) (nowNs : Int) (seeded r : Rng),
      (Firewall.randomize f nowNs seeded r).1.SentBytes =
        (Firewall.randomize f nowNs seeded r).1.SentPackets * 1500 ∧
      (Firewall.randomize f nowNs seeded r).1.ReceivedBytes =
        f.ReceivedBytes) ∧
    (∀ u cp nowNs seeded r g, firewall.New u cp nowNs seeded r = .ok g →
      g.SentBytes = g.SentPackets * 1500 ∧ g.ReceivedBytes = 0) ∧
    (∀ g : Firewall, ∃ pre post : String,
      firewall.renderTrafficForward g =
        pre ++ showNat g.SentBytes ++ " rcvdbyte=" ++ showNat g.SentBytes
          ++ post) := by
  refine ⟨?_, ?_, ?_⟩
  · intro f nowNs seeded r
    exact ⟨rfl, rfl⟩
  · intro u cp nowNs seeded r g h
    obtain ⟨-, -, rfl⟩ := firewall_New_ok u cp nowNs seeded r g h
    exact ⟨rfl, rfl⟩
  · intro g
    refine ⟨"date=" ++ formatUTCDate g.Date ++ " time=" ++ g.Timestamp
      ++ " devname=\"" ++ g.DevName ++ "\" devid=\"" ++ g.DevId
      ++ "\" logid=\"" ++ showNat g.LogId
      ++ "\" type=\"traffic\" subtype=\"forward\" level=\"" ++ g.Level
      ++ "\" vd=\"" ++ g.Vd ++ "\" eventtime=" ++ showInt g.Date
      ++ " srcip=" ++ ipString g.SrcIp
      ++ " srcport=" ++ showNat g.SrcPort
      ++ " srcintf=\"" ++ g.Interface1 ++ "\" srcintfrole=\"" ++ g.InterfaceRole1
      ++ "\" dstip=" ++ ipString g.DstIp
      ++ " dstport=" ++ showNat g.DstPort
      ++ " dstintf=\"" ++ g.Interface2
      ++ "\" dstintfrole=\"" ++ g.InterfaceRole2
      ++ "\" sessionid=" ++ showNat g.SessionId
      ++ " proto=" ++ showNat g.Protocol
      ++ " action=\"" ++ g.TrafficAction
      ++ "\" policyid=" ++ showNat g.PolicyId
      ++ " policytype=\"policy\" service=\"SNMP\" dstcountry=\"Reserved\""
      ++ " srccountry=\"Reserved\" trandisp=\"noop\" duration="
      ++ showNat g.Duration ++ " sentbyte=",
      " sentpkt=" ++ showNat g.SentPackets
        ++ " appcat=\"unscanned\" crscore=30 craction=131072 crlevel=\"high\"",
      ?_⟩
    unfold firewall.renderTrafficForward
    simp only [String.append_assoc]
